import Mathlib

/-
  Verification of the DatabaseService data-access layer
  (prep-database-integration repository).

  The file shallowly embeds the two service variants found in
  src/unnamed/part_002:
  - the "full" variant (lines 34-1216): profile caching, sanitization,
    executeWithErrorHandling, diagnoseConnection;
  - the "lock" variant (lines 1216-1709): operation locks, recent-duplicate
    suppression, deduplicatePrepLists.

  JavaScript conventions used by the embedding:
  - optional / nullable values are Option;
  - a missing or null string field and the empty string are both falsy in
    the source truthiness tests, so remote rows model both as "";
  - JS numbers are modeled as Int (the source only tests falsiness, i.e.
    zero, of numeric fields);
  - a thrown exception is the error of an Except.
-/

/-- JS `String.prototype.trim`, modeled over the character list so that it
evaluates by kernel reduction (the built-in byte-position trim does not). -/
def String.jsTrim (s : String) : String :=
  ⟨((s.data.dropWhile Char.isWhitespace).reverse.dropWhile Char.isWhitespace).reverse⟩

namespace PrepDb

/-- JS `x || null` on an optional string: null and the empty string both
collapse to null, any other string passes through. -/
def jsOrNull : Option String → Option String
  | none => none
  | some s => if s = "" then none else some s

/-- JS `x?.trim() || null` on an optional string: absent stays null, a
string that trims to empty becomes null, otherwise the trimmed string. -/
def jsTrimOrNull : Option String → Option String
  | none => none
  | some s => if s.jsTrim = "" then none else some s.jsTrim

/-- JS `Number(x) || null` on an optional number: absent (NaN) and zero
become null, anything else passes through. -/
def jsNumOrNull : Option Int → Option Int
  | none => none
  | some n => if n = 0 then none else some n

/-- PrepItem (interface PrepItem, part_002 lines 47-56). -/
structure PrepItem where
  id : String
  name : String
  quantity : String
  unit : String
  category : Option String
  completed : Option Bool
  assignedTo : Option String
  notes : Option String
deriving DecidableEq, Repr

/-- PrepList domain object (interface PrepList, part_002 lines 58-65). -/
structure PrepList where
  id : String
  name : String
  items : List PrepItem
  company_id : Option String
  created_at : Option String
  updated_at : Option String
deriving DecidableEq, Repr

/-- Recipe difficulty (Easy | Medium | Hard). -/
inductive Difficulty where
  | easy
  | medium
  | hard
deriving DecidableEq, Repr

/-- Recipe domain object (interface Recipe, part_002 lines 80-97). -/
structure Recipe where
  id : String
  name : String
  description : Option String
  ingredients : List String
  instructions : List String
  yield : Option String
  prepTime : Option Int
  cookTime : Option Int
  totalTime : Option Int
  difficulty : Option Difficulty
  tags : Option (List String)
  notes : Option String
  image : Option String
  company_id : Option String
  createdAt : Option String
  updatedAt : Option String
deriving DecidableEq, Repr

/-- Sanitized prep-list wire row sent to the upsert
(savePrepList, part_002 lines 316-322). -/
structure WirePrepList where
  id : String
  name : String
  items : List PrepItem
  company_id : Option String
  user_id : String
deriving DecidableEq, Repr

/-- A prep_lists row as returned by the remote select.  A missing or null
id / name is modeled as the empty string (both are falsy in the source
truthiness filters); a null or non-array items column is modeled as none. -/
structure PrepRow where
  id : String
  name : String
  items : Option (List PrepItem)
  company_id : Option String
  created_at : Option String
  updated_at : Option String
deriving DecidableEq, Repr

/-- Sanitized recipe wire row (saveRecipe, part_002 lines 481-497). -/
structure WireRecipe where
  id : String
  name : String
  description : Option String
  ingredients : List String
  instructions : List String
  yield : Option String
  prep_time : Option Int
  cook_time : Option Int
  total_time : Option Int
  difficulty : Difficulty
  tags : List String
  notes : Option String
  image : Option String
  company_id : Option String
  user_id : String
deriving DecidableEq, Repr

/-- A recipes row as returned by the remote select. -/
structure RecipeRow where
  id : String
  name : String
  description : Option String
  ingredients : Option (List String)
  instructions : Option (List String)
  yield : Option String
  prep_time : Option Int
  cook_time : Option Int
  total_time : Option Int
  difficulty : Option Difficulty
  tags : Option (List String)
  notes : Option String
  image : Option String
  company_id : Option String
  created_at : Option String
  updated_at : Option String
deriving DecidableEq, Repr

/-- The sanitize step of the full-variant savePrepList
(part_002 lines 316-322): trim the name, pass the items array through
(the Array.isArray guard is the identity on a well-typed list), collapse
an empty company_id to null, and attach the callers user id. -/
def sanitizePrepList (p : PrepList) (userId : String) : WirePrepList :=
  { id := p.id
    name := p.name.jsTrim
    items := p.items
    company_id := jsOrNull p.company_id
    user_id := userId }

/-- The row-to-domain mapping shared by loadPrepLists (part_002 lines
362-369) and the savePrepList response mapping (lines 335-342): items
default to the empty list when null or malformed. -/
def prepListFromRow (r : PrepRow) : PrepList :=
  { id := r.id
    name := r.name
    items := r.items.getD []
    company_id := r.company_id
    created_at := r.created_at
    updated_at := r.updated_at }

/-- The row the remote upsert stores and echoes back for a sanitized
payload: the wire fields plus the server-assigned timestamps. -/
def rowOfWirePrepList (w : WirePrepList) (c u : Option String) : PrepRow :=
  { id := w.id
    name := w.name
    items := some w.items
    company_id := w.company_id
    created_at := c
    updated_at := u }

/-- The sanitize step of saveRecipe (part_002 lines 481-497). -/
def sanitizeRecipe (r : Recipe) (userId : String) : WireRecipe :=
  { id := r.id
    name := r.name.jsTrim
    description := jsTrimOrNull r.description
    ingredients := r.ingredients
    instructions := r.instructions
    yield := jsTrimOrNull r.yield
    prep_time := jsNumOrNull r.prepTime
    cook_time := jsNumOrNull r.cookTime
    total_time := jsNumOrNull r.totalTime
    difficulty := r.difficulty.getD Difficulty.medium
    tags := r.tags.getD []
    notes := jsTrimOrNull r.notes
    image := jsTrimOrNull r.image
    company_id := jsOrNull r.company_id
    user_id := userId }

/-- The row-to-domain mapping of loadRecipes (part_002 lines 546-563):
array fields default to the empty list, a null difficulty defaults to
Medium. -/
def recipeFromRow (row : RecipeRow) : Recipe :=
  { id := row.id
    name := row.name
    description := row.description
    ingredients := row.ingredients.getD []
    instructions := row.instructions.getD []
    yield := row.yield
    prepTime := row.prep_time
    cookTime := row.cook_time
    totalTime := row.total_time
    difficulty := some (row.difficulty.getD Difficulty.medium)
    tags := some (row.tags.getD [])
    notes := row.notes
    image := row.image
    company_id := row.company_id
    createdAt := row.created_at
    updatedAt := row.updated_at }

/-- The recipes row stored and echoed back for a sanitized payload. -/
def rowOfWireRecipe (w : WireRecipe) (c u : Option String) : RecipeRow :=
  { id := w.id
    name := w.name
    description := w.description
    ingredients := some w.ingredients
    instructions := some w.instructions
    yield := w.yield
    prep_time := w.prep_time
    cook_time := w.cook_time
    total_time := w.total_time
    difficulty := some w.difficulty
    tags := some w.tags
    notes := w.notes
    image := w.image
    company_id := w.company_id
    created_at := c
    updated_at := u }

/-- Round trip of a prep list through the sanitize step, the stored row
and the row-to-domain mapping. -/
def prepListRoundTrip (p : PrepList) (uid : String) (c u : Option String) : PrepList :=
  prepListFromRow (rowOfWirePrepList (sanitizePrepList p uid) c u)

/-- Round trip of a recipe through the sanitize step, the stored row and
the row-to-domain mapping. -/
def recipeRoundTrip (r : Recipe) (uid : String) (c u : Option String) : Recipe :=
  recipeFromRow (rowOfWireRecipe (sanitizeRecipe r uid) c u)

/-- A valid prep list whose name carries surrounding whitespace: the
round trip trims it, so the name field is not reproduced. -/
def c1BadPrep : PrepList :=
  { id := "p1"
    name := " Dinner Prep "
    items := []
    company_id := none
    created_at := none
    updated_at := none }

/-- A valid recipe whose prepTime is the present value 0: the sanitize
step (Number(x) || null) turns it into null. -/
def c1BadRecipe : Recipe :=
  { id := "r1"
    name := "Stock"
    description := none
    ingredients := ["bones"]
    instructions := ["simmer"]
    yield := none
    prepTime := some 0
    cookTime := none
    totalTime := none
    difficulty := some Difficulty.easy
    tags := none
    notes := none
    image := none
    company_id := none
    createdAt := none
    updatedAt := none }

/-- C1, counterexample.  The round-trip law fails as stated: a valid prep
list with non-empty id and name whose name carries whitespace comes back
with the name trimmed (a present, non-optional field changed), and a valid
recipe with the present value prepTime = 0 comes back with prepTime null
(a present optional field dropped, not an absent one defaulted). -/
theorem c1_roundtrip_counterexample :
    c1BadPrep.id ≠ "" ∧ c1BadPrep.name.jsTrim ≠ "" ∧
    (prepListRoundTrip c1BadPrep "u1" none none).name ≠ c1BadPrep.name ∧
    c1BadRecipe.id ≠ "" ∧ c1BadRecipe.name.jsTrim ≠ "" ∧
    (recipeRoundTrip c1BadRecipe "u1" none none).prepTime ≠ c1BadRecipe.prepTime := by
  decide

/-- C1, amended.  For every valid entity the round trip reproduces the
sanitized entity: every field is reproduced except that the name is
trimmed, optional strings are trimmed with empty collapsing to null,
zero numeric optionals collapse to null, an absent difficulty defaults to
Medium, absent tags default to the empty list, an empty company_id
collapses to null, and timestamps are the server-assigned ones.  An entity
already in this sanitized form is reproduced exactly (up to timestamps). -/
theorem c1_roundtrip_normalizes :
    (∀ (p : PrepList) (uid : String) (c u : Option String),
      p.id ≠ "" → p.name.jsTrim ≠ "" →
      prepListRoundTrip p uid c u =
        { id := p.id
          name := p.name.jsTrim
          items := p.items
          company_id := jsOrNull p.company_id
          created_at := c
          updated_at := u }) ∧
    (∀ (r : Recipe) (uid : String) (c u : Option String),
      r.id ≠ "" → r.name.jsTrim ≠ "" →
      recipeRoundTrip r uid c u =
        { id := r.id
          name := r.name.jsTrim
          description := jsTrimOrNull r.description
          ingredients := r.ingredients
          instructions := r.instructions
          yield := jsTrimOrNull r.yield
          prepTime := jsNumOrNull r.prepTime
          cookTime := jsNumOrNull r.cookTime
          totalTime := jsNumOrNull r.totalTime
          difficulty := some (r.difficulty.getD Difficulty.medium)
          tags := some (r.tags.getD [])
          notes := jsTrimOrNull r.notes
          image := jsTrimOrNull r.image
          company_id := jsOrNull r.company_id
          createdAt := c
          updatedAt := u }) ∧
    (∀ (p : PrepList) (uid : String) (c u : Option String),
      p.id ≠ "" → p.name.jsTrim = p.name → p.name ≠ "" →
      jsOrNull p.company_id = p.company_id →
      prepListRoundTrip p uid c u =
        { p with created_at := c, updated_at := u }) := by
  refine ⟨?_, ?_, ?_⟩
  · intro p uid c u _ _
    rfl
  · intro r uid c u _ _
    rfl
  · intro p uid c u _ htrim _ hcid
    have h := congrArg (fun s => PrepList.mk p.id s p.items (jsOrNull p.company_id) c u) htrim
    simp only [prepListRoundTrip, prepListFromRow, rowOfWirePrepList, sanitizePrepList,
      Option.getD] at h ⊢
    rw [htrim, hcid]

/-- C1 witness: the amended round-trip law applied at a concrete sanitized
prep list. -/
theorem c1_roundtrip_witness :
    prepListRoundTrip
      { id := "p2", name := "Dinner", items := [], company_id := none,
        created_at := none, updated_at := none } "u1" (some "t1") (some "t2") =
      { id := "p2", name := "Dinner", items := [], company_id := none,
        created_at := some "t1", updated_at := some "t2" } := by
  exact c1_roundtrip_normalizes.2.2
    { id := "p2", name := "Dinner", items := [], company_id := none,
      created_at := none, updated_at := none } "u1" (some "t1") (some "t2")
    (by decide) (by decide) (by decide) (by decide)

namespace LockService

/-- State of the static operationLocks map of the lock-variant service
(part_002 line 1294), at the level of the promise algebra: a pending
promise is identified by a numeric token, `locks` maps each operation key
to the token of its in-flight promise, `nextId` supplies fresh tokens and
`invoked` counts how many times an operation function was actually
started. -/
structure LockState where
  locks : List (String × Nat)
  nextId : Nat
  invoked : Nat
deriving DecidableEq, Repr

/-- Map.get on the lock map. -/
def lookupLock (k : String) : List (String × Nat) → Option Nat
  | [] => none
  | e :: es => if e.1 = k then some e.2 else lookupLock k es

/-- executeWithLock (part_002 lines 1370-1388).  If the key already has an
in-flight promise the caller receives that very token and the operation
function is not started; otherwise a fresh promise is started, recorded
under the key and handed to the caller. -/
def executeWithLock (k : String) (s : LockState) : Nat × LockState :=
  match lookupLock k s.locks with
  | some t => (t, s)
  | none =>
    (s.nextId,
      { locks := s.locks ++ [(k, s.nextId)]
        nextId := s.nextId + 1
        invoked := s.invoked + 1 })

/-- The scoped release attached with .finally (part_002 lines 1382-1384):
when the in-flight promise for the key settles, the map entry for that key
is deleted whatever the outcome (the success flag is ignored). -/
def settleWithLock (k : String) (_success : Bool) (s : LockState) : LockState :=
  { s with locks := s.locks.filter (fun e => e.1 != k) }

theorem lookupLock_filter_self (k : String) (l : List (String × Nat)) :
    lookupLock k (l.filter (fun e => e.1 != k)) = none := by
  induction l with
  | nil => rfl
  | cons e es ih =>
    by_cases h : e.1 = k
    · have hb : (e.1 != k) = false := by simp [bne, h]
      simp [List.filter_cons, hb, ih]
    · have hb : (e.1 != k) = true := by simp [bne, h]
      simp [List.filter_cons, hb, lookupLock, h, ih]

theorem lookupLock_append_self (k : String) (l : List (String × Nat)) (n : Nat)
    (h : lookupLock k l = none) : lookupLock k (l ++ [(k, n)]) = some n := by
  induction l with
  | nil => simp [lookupLock]
  | cons e es ih =>
    by_cases he : e.1 = k
    · rw [lookupLock, if_pos he] at h
      exact absurd h (by simp)
    · rw [List.cons_append, lookupLock, if_neg he]
      rw [lookupLock, if_neg he] at h
      exact ih h

/-- C2.  In-flight de-duplication: if a promise for the key is pending,
a second executeWithLock call returns the very same pending promise, does
not start the operation function and leaves the state unchanged; a fresh
call starts the function exactly once, and a repeated call before the
settle joins it; when the in-flight promise settles - success or failure -
the lock-map entry for the key is removed. -/
theorem c2_executeWithLock_spec :
    (∀ (k : String) (s : LockState) (t : Nat),
      lookupLock k s.locks = some t → executeWithLock k s = (t, s)) ∧
    (∀ (k : String) (s : LockState),
      lookupLock k s.locks = none →
      (executeWithLock k s).2.invoked = s.invoked + 1 ∧
      executeWithLock k (executeWithLock k s).2 =
        ((executeWithLock k s).1, (executeWithLock k s).2)) ∧
    (∀ (k : String) (success : Bool) (s : LockState),
      lookupLock k (settleWithLock k success s).locks = none) := by
  refine ⟨?_, ?_, ?_⟩
  · intro k s t h
    simp [executeWithLock, h]
  · intro k s h
    constructor
    · simp [executeWithLock, h]
    · simp only [executeWithLock, h]
      rw [lookupLock_append_self k s.locks s.nextId h]
  · intro k success s
    exact lookupLock_filter_self k s.locks

/-- C2 witness: a pending deletePrepList promise under its derived key is
joined, not re-run, by a second call. -/
theorem c2_executeWithLock_witness :
    executeWithLock "deletePrepList_p1" (LockState.mk [("deletePrepList_p1", 7)] 8 1) =
      (7, LockState.mk [("deletePrepList_p1", 7)] 8 1) :=
  c2_executeWithLock_spec.1 "deletePrepList_p1"
    (LockState.mk [("deletePrepList_p1", 7)] 8 1) 7 (by decide)

end LockService

/-- Does the first character list lead the second (String.startsWith on
character lists)? -/
def charsLead : List Char → List Char → Bool
  | [], _ => true
  | _ :: _, [] => false
  | a :: as, b :: bs => a == b && charsLead as bs

/-- Does the needle occur inside the haystack (JS String.prototype.includes
on character lists)? -/
def charsWithin (needle : List Char) : List Char → Bool
  | [] => charsLead needle []
  | b :: bs => charsLead needle (b :: bs) || charsWithin needle bs

/-- JS `hay.includes(needle)`. -/
def containsStr (hay needle : String) : Bool :=
  charsWithin needle.data hay.data

namespace FullService

/-- The authenticated session principal (session.user): id, email, the
optional display name from the user metadata, and the session role. -/
structure AuthUser where
  id : String
  email : String
  metaFullName : Option String
  role : Option String
deriving DecidableEq, Repr

/-- UserProfile role (user | admin | owner). -/
inductive Role where
  | user
  | admin
  | owner
deriving DecidableEq, Repr

/-- UserProfile (interface UserProfile, part_002 lines 36-45). -/
structure UserProfile where
  id : String
  email : String
  full_name : Option String
  company_id : Option String
  role : Role
  avatar_url : Option String
  created_at : Option String
  updated_at : Option String
deriving DecidableEq, Repr

/-- Payload of the profile-creating upsert (part_002 lines 175-180). -/
structure NewProfile where
  id : String
  email : String
  full_name : Option String
  role : Role
deriving DecidableEq, Repr

/-- Mutable static state of the full-variant service: currentUser,
userProfile cache and the memoized connection promise (part_002 lines
126-129).  The memo stores the result of a completed connection test. -/
structure FullState where
  currentUser : Option AuthUser
  userProfile : Option UserProfile
  connectionMemo : Option Bool
deriving DecidableEq, Repr

/-- One remote round trip performed by the service.  Only profileUpsert
and entityUpsert mutate remote rows; the rest are reads. -/
inductive RemoteEv where
  | connProbe
  | sessionFetch
  | profileFetch
  | profileUpsert (p : NewProfile)
  | entityUpsert
  | entitySelect
  | tableProbe (t : String)
  | rlsQuery (t : String)
deriving DecidableEq, Repr

/-- Is the remote round trip a write? -/
def RemoteEv.isWrite : RemoteEv → Bool
  | .profileUpsert _ => true
  | .entityUpsert => true
  | _ => false

/-- A backend error object (code and message). -/
structure RemoteErr where
  code : String
  msg : String
deriving DecidableEq, Repr

/-- Errors surfaced by the full-variant operations. -/
inductive SaveErr where
  | connectionUnavailable
  | validation (msg : String)
  | authRequired (msg : String)
  | remote (e : RemoteErr)
  | reclassified (msg : String)
deriving DecidableEq, Repr

/-- The code field inspected by executeWithErrorHandling; only backend
errors carry one. -/
def errCode : SaveErr → Option String
  | .remote e => some e.code
  | _ => none

/-- The message field inspected by executeWithErrorHandling. -/
def errMsg : SaveErr → String
  | .connectionUnavailable =>
      "Database connection not available. Please check your Supabase configuration."
  | .validation m => m
  | .authRequired m => m
  | .remote e => e.msg
  | .reclassified m => m

/-- The reclassification performed by the catch block of
executeWithErrorHandling (part_002 lines 284-298): code 42P01 becomes a
table-missing message, code 42501 or an RLS mention becomes access-denied,
code 23505 becomes duplicate-entry, a JWT mention becomes invalid-token,
anything else is re-raised unchanged. -/
def classifyError (e : SaveErr) : SaveErr :=
  if errCode e = some "42P01" then
    .reclassified "Table not found. Please ensure database migrations have been run."
  else if errCode e = some "42501" || containsStr (errMsg e) "RLS" then
    .reclassified "Access denied. Please check Row Level Security policies or authentication."
  else if errCode e = some "23505" then
    .reclassified "Duplicate entry detected. This item may already exist."
  else if containsStr (errMsg e) "JWT" then
    .reclassified "Authentication token invalid. Please refresh and try again."
  else e

/-- The remote collaborator, as an oracle fixing the outcome of every
round trip the full-variant service can issue.  An Except error is a
thrown exception; a nested Except error is an error object returned in
the response.  connectionOk abstracts the outcome of
_performConnectionTest (part_002 lines 212-254). -/
structure FullRemote where
  connectionOk : Bool
  fetchProfile : String → Except String (Option UserProfile)
  upsertProfile : NewProfile → Except String (Except String UserProfile)
  upsertPrepList : WirePrepList → Except RemoteErr PrepRow
  selectPrepLists : Except RemoteErr (List PrepRow)

/-- The profile payload created from the identity (part_002 lines
175-180): the identity id and email, the optional display name from the
user metadata, role "user". -/
def newProfileOf (u : AuthUser) : NewProfile :=
  { id := u.id
    email := u.email
    full_name := jsOrNull u.metaFullName
    role := Role.user }

/-- ensureUserProfile (part_002 lines 157-199).  Returns null without any
remote traffic when there is no identity or when the cache is filled;
otherwise fetches the profile by the identity id, and on a miss creates
one with newProfileOf via an upsert keyed by id.  Every remote failure -
thrown fetch, thrown upsert or a returned creation error - yields null
rather than an exception. -/
def ensureUserProfile (r : FullRemote) (st : FullState) :
    Option UserProfile × FullState × List RemoteEv :=
  match st.currentUser with
  | none => (none, st, [])
  | some u =>
    match st.userProfile with
    | some p => (some p, st, [])
    | none =>
      match r.fetchProfile u.id with
      | .error _ => (none, st, [.profileFetch])
      | .ok (some p) => (some p, { st with userProfile := some p }, [.profileFetch])
      | .ok none =>
        match r.upsertProfile (newProfileOf u) with
        | .error _ => (none, st, [.profileFetch, .profileUpsert (newProfileOf u)])
        | .ok (.error _) => (none, st, [.profileFetch, .profileUpsert (newProfileOf u)])
        | .ok (.ok created) =>
          (some created, { st with userProfile := some created },
            [.profileFetch, .profileUpsert (newProfileOf u)])

/-- testConnection (part_002 lines 202-210): a pending or completed memo
is returned as is; otherwise the connection test runs (one remote round
trip) and its result is memoized.  The memo is cleared only on auth
transitions, not here. -/
def testConnection (r : FullRemote) (st : FullState) :
    Bool × FullState × List RemoteEv :=
  match st.connectionMemo with
  | some b => (b, st, [])
  | none => (r.connectionOk, { st with connectionMemo := some r.connectionOk }, [.connProbe])

/-- The state after the ensure-profile step of executeWithErrorHandling
(part_002 lines 268-271): ensureUserProfile runs only when an identity is
present, and its return value is discarded. -/
def profileState (r : FullRemote) (st : FullState) : FullState :=
  match st.currentUser with
  | some _ => (ensureUserProfile r st).2.1
  | none => st

/-- The remote traffic of the ensure-profile step. -/
def profileEvents (r : FullRemote) (st : FullState) : List RemoteEv :=
  match st.currentUser with
  | some _ => (ensureUserProfile r st).2.2
  | none => []

/-- executeWithErrorHandling (part_002 lines 257-300): first the
connection test, a failure of which throws connection-unavailable; then,
when an identity is present, ensureUserProfile; then the wrapped body;
every error escaping the body (including the connection throw) passes
through classifyError. -/
def executeWithErrorHandling {α : Type} (r : FullRemote) (st : FullState)
    (body : FullState → Except SaveErr α × List RemoteEv) :
    Except SaveErr α × FullState × List RemoteEv :=
  if (testConnection r st).1 then
    match body (profileState r (testConnection r st).2.1) with
    | (.ok a, ev) =>
      (.ok a, profileState r (testConnection r st).2.1,
        (testConnection r st).2.2 ++ profileEvents r (testConnection r st).2.1 ++ ev)
    | (.error e, ev) =>
      (.error (classifyError e), profileState r (testConnection r st).2.1,
        (testConnection r st).2.2 ++ profileEvents r (testConnection r st).2.1 ++ ev)
  else
    (.error (classifyError .connectionUnavailable),
      (testConnection r st).2.1, (testConnection r st).2.2)

/-- The body of the full-variant savePrepList (part_002 lines 304-343):
validate id and trimmed name, require an identity, sanitize, upsert by id
and map the response row back. -/
def savePrepListBody (r : FullRemote) (p : PrepList) (st : FullState) :
    Except SaveErr PrepList × List RemoteEv :=
  if p.id = "" ∨ p.name.jsTrim = "" then
    (.error (.validation "Prep list must have a valid ID and name"), [])
  else
    match st.currentUser with
    | none => (.error (.authRequired "Authentication required to save prep lists"), [])
    | some u =>
      match r.upsertPrepList (sanitizePrepList p u.id) with
      | .ok row => (.ok (prepListFromRow row), [.entityUpsert])
      | .error e => (.error (.remote e), [.entityUpsert])

/-- The full-variant savePrepList (part_002 lines 303-344). -/
def savePrepList (r : FullRemote) (p : PrepList) (st : FullState) :
    Except SaveErr PrepList × FullState × List RemoteEv :=
  executeWithErrorHandling r st (savePrepListBody r p)

/-- The body of the full-variant loadPrepLists (part_002 lines 347-370):
select all rows, keep only rows with truthy id and name, map. -/
def loadPrepListsBody (r : FullRemote) (_st : FullState) :
    Except SaveErr (List PrepList) × List RemoteEv :=
  match r.selectPrepLists with
  | .ok rows =>
    (.ok ((rows.filter (fun it => it.id != "" && it.name != "")).map prepListFromRow),
      [.entitySelect])
  | .error e => (.error (.remote e), [.entitySelect])

/-- The full-variant loadPrepLists (part_002 lines 346-371). -/
def loadPrepLists (r : FullRemote) (st : FullState) :
    Except SaveErr (List PrepList) × FullState × List RemoteEv :=
  executeWithErrorHandling r st (loadPrepListsBody r)

/-- A concrete remote collaborator used by closed witness statements:
connection up, empty tables, echoing upserts. -/
def trivialRemote : FullRemote :=
  { connectionOk := true
    fetchProfile := fun _ => .ok none
    upsertProfile := fun np =>
      .ok (.ok
        { id := np.id, email := np.email, full_name := np.full_name,
          company_id := none, role := np.role, avatar_url := none,
          created_at := none, updated_at := none })
    upsertPrepList := fun w => .ok (rowOfWirePrepList w (some "t1") (some "t2"))
    selectPrepLists := .ok [] }

/-- C7.  ensureUserProfile returns null with no remote traffic when there
is no identity; returns the cached profile when one is cached; otherwise
fetches by the identity id and, on a miss, creates a profile via an upsert
of the identity-derived payload (id, email, optional display name, role
user); every remote failure during fetch or creation yields null rather
than an exception. -/
theorem c7_ensureUserProfile_spec :
    (∀ (r : FullRemote) (st : FullState),
      st.currentUser = none → ensureUserProfile r st = (none, st, [])) ∧
    (∀ (r : FullRemote) (st : FullState) (u : AuthUser) (p : UserProfile),
      st.currentUser = some u → st.userProfile = some p →
      ensureUserProfile r st = (some p, st, [])) ∧
    (∀ (r : FullRemote) (st : FullState) (u : AuthUser) (p : UserProfile),
      st.currentUser = some u → st.userProfile = none →
      r.fetchProfile u.id = .ok (some p) →
      ensureUserProfile r st =
        (some p, { st with userProfile := some p }, [.profileFetch])) ∧
    (∀ (r : FullRemote) (st : FullState) (u : AuthUser) (m : String),
      st.currentUser = some u → st.userProfile = none →
      r.fetchProfile u.id = .error m →
      ensureUserProfile r st = (none, st, [.profileFetch])) ∧
    (∀ (r : FullRemote) (st : FullState) (u : AuthUser),
      st.currentUser = some u → st.userProfile = none →
      r.fetchProfile u.id = .ok none →
      ((∀ created, r.upsertProfile (newProfileOf u) = .ok (.ok created) →
        ensureUserProfile r st =
          (some created, { st with userProfile := some created },
            [.profileFetch, .profileUpsert (newProfileOf u)])) ∧
       (∀ m, r.upsertProfile (newProfileOf u) = .ok (.error m) →
        ensureUserProfile r st =
          (none, st, [.profileFetch, .profileUpsert (newProfileOf u)])) ∧
       (∀ m, r.upsertProfile (newProfileOf u) = .error m →
        ensureUserProfile r st =
          (none, st, [.profileFetch, .profileUpsert (newProfileOf u)])))) := by
  refine ⟨?_, ?_, ?_, ?_, ?_⟩
  · intro r st h
    simp [ensureUserProfile, h]
  · intro r st u p h1 h2
    simp [ensureUserProfile, h1, h2]
  · intro r st u p h1 h2 h3
    simp [ensureUserProfile, h1, h2, h3]
  · intro r st u m h1 h2 h3
    simp [ensureUserProfile, h1, h2, h3]
  · intro r st u h1 h2 h3
    refine ⟨?_, ?_, ?_⟩
    · intro created h4
      simp [ensureUserProfile, h1, h2, h3, h4]
    · intro m h4
      simp [ensureUserProfile, h1, h2, h3, h4]
    · intro m h4
      simp [ensureUserProfile, h1, h2, h3, h4]

/-- C7 witness: with no identity the profile lookup is skipped entirely. -/
theorem c7_ensureUserProfile_witness :
    ensureUserProfile trivialRemote (FullState.mk none none none) =
      (none, FullState.mk none none none, []) :=
  c7_ensureUserProfile_spec.1 trivialRemote (FullState.mk none none none) rfl

theorem ensureUserProfile_currentUser (r : FullRemote) (st : FullState) :
    (ensureUserProfile r st).2.1.currentUser = st.currentUser := by
  unfold ensureUserProfile
  repeat' split
  all_goals rfl

theorem ensureUserProfile_no_entityUpsert (r : FullRemote) (st : FullState) :
    RemoteEv.entityUpsert ∉ (ensureUserProfile r st).2.2 := by
  unfold ensureUserProfile
  repeat' split
  all_goals simp

theorem ensureUserProfile_writes (r : FullRemote) (st : FullState) :
    ∀ e ∈ (ensureUserProfile r st).2.2, e.isWrite = true →
      ∃ np, e = RemoteEv.profileUpsert np := by
  unfold ensureUserProfile
  repeat' split
  all_goals simp [RemoteEv.isWrite]

theorem profileState_currentUser (r : FullRemote) (st : FullState) :
    (profileState r st).currentUser = st.currentUser := by
  unfold profileState
  split
  · rw [ensureUserProfile_currentUser]
  · rfl

theorem profileEvents_no_entityUpsert (r : FullRemote) (st : FullState) :
    RemoteEv.entityUpsert ∉ profileEvents r st := by
  unfold profileEvents
  split
  · exact ensureUserProfile_no_entityUpsert r st
  · simp

theorem testConnection_currentUser (r : FullRemote) (st : FullState) :
    (testConnection r st).2.1.currentUser = st.currentUser := by
  unfold testConnection
  split <;> rfl

theorem testConnection_events (r : FullRemote) (st : FullState) :
    (testConnection r st).2.2 = [] ∨ (testConnection r st).2.2 = [RemoteEv.connProbe] := by
  unfold testConnection
  split
  · exact Or.inl rfl
  · exact Or.inr rfl

theorem classify_fixes_connectionUnavailable :
    classifyError SaveErr.connectionUnavailable = SaveErr.connectionUnavailable := by
  decide

theorem classify_fixes_savePrepList_validation :
    classifyError (.validation "Prep list must have a valid ID and name") =
      .validation "Prep list must have a valid ID and name" := by
  decide

theorem classify_fixes_savePrepList_auth :
    classifyError (.authRequired "Authentication required to save prep lists") =
      .authRequired "Authentication required to save prep lists" := by
  decide

theorem executeWithErrorHandling_fst {α : Type} (r : FullRemote) (st : FullState)
    (body : FullState → Except SaveErr α × List RemoteEv) :
    (executeWithErrorHandling r st body).1 =
      if (testConnection r st).1 then
        match (body (profileState r (testConnection r st).2.1)).1 with
        | .ok a => .ok a
        | .error e => .error (classifyError e)
      else .error (classifyError .connectionUnavailable) := by
  unfold executeWithErrorHandling
  split
  · rcases hb : body (profileState r (testConnection r st).2.1) with ⟨res, ev⟩
    rcases res with e | a <;> simp [hb]
  · rfl

theorem executeWithErrorHandling_events {α : Type} (r : FullRemote) (st : FullState)
    (body : FullState → Except SaveErr α × List RemoteEv) :
    (executeWithErrorHandling r st body).2.2 =
      if (testConnection r st).1 then
        (testConnection r st).2.2 ++ profileEvents r (testConnection r st).2.1 ++
          (body (profileState r (testConnection r st).2.1)).2
      else (testConnection r st).2.2 := by
  unfold executeWithErrorHandling
  split
  · rcases hb : body (profileState r (testConnection r st).2.1) with ⟨res, ev⟩
    rcases res with e | a <;> simp [hb]
  · rfl

theorem savePrepListBody_invalid (r : FullRemote) (p : PrepList) (st : FullState)
    (hv : p.id = "" ∨ p.name.jsTrim = "") :
    savePrepListBody r p st =
      (.error (.validation "Prep list must have a valid ID and name"), []) := by
  unfold savePrepListBody
  rw [if_pos hv]

theorem savePrepListBody_noauth (r : FullRemote) (p : PrepList) (st : FullState)
    (hv : ¬(p.id = "" ∨ p.name.jsTrim = "")) (h : st.currentUser = none) :
    savePrepListBody r p st =
      (.error (.authRequired "Authentication required to save prep lists"), []) := by
  unfold savePrepListBody
  rw [if_neg hv, h]

theorem savePrepListBody_events_user (r : FullRemote) (p : PrepList) (st : FullState)
    (u : AuthUser) (hv : ¬(p.id = "" ∨ p.name.jsTrim = "")) (h : st.currentUser = some u) :
    (savePrepListBody r p st).2 = [RemoteEv.entityUpsert] := by
  unfold savePrepListBody
  rw [if_neg hv, h]
  repeat' split
  all_goals simp_all

/-- The concrete state for the C5 counterexample: an authenticated user
with a warm profile cache and no memoized connection result. -/
def c5State : FullState :=
  { currentUser := some (AuthUser.mk "user-1" "a@b.c" none none)
    userProfile := some (UserProfile.mk "user-1" "a@b.c" none none Role.user none none none)
    connectionMemo := none }

/-- A prep list that fails local validation (whitespace-only name). -/
def c5BadPrep : PrepList :=
  { id := "p1"
    name := "   "
    items := []
    company_id := none
    created_at := none
    updated_at := none }

/-- C5, counterexample.  For a save whose payload fails local validation,
the pipeline still issues the remote connection probe first: the result is
the ValidationError, but the event trace shows a remote round trip
(connProbe) performed before validation ran - the claim that validation
errors are raised before any remote call, and that validate precedes
ensure-connected, is false. -/
theorem c5_order_counterexample :
    (c5BadPrep.id ≠ "" ∧ c5BadPrep.name.jsTrim = "") ∧
    savePrepList trivialRemote c5BadPrep c5State =
      (.error (.validation "Prep list must have a valid ID and name"),
        { c5State with connectionMemo := some true },
        [RemoteEv.connProbe]) := by
  constructor
  · constructor
    · decide
    · decide
  · rfl

/-- C5, amended.  The save pipeline runs ensure-connected, then
ensure-profile (if an identity is present), then validate, then the auth
guard, then the wire mapping and remote upsert: a failed connection test
surfaces as ConnectionUnavailable before validation; validation and auth
failures surface before the remote upsert (no entity write in the trace)
although after the connection probe; and a successful save ends its trace
with the entity upsert. -/
theorem c5_pipeline_order :
    (∀ (r : FullRemote) (st : FullState) (p : PrepList),
      (testConnection r st).1 = false →
      (savePrepList r p st).1 = .error SaveErr.connectionUnavailable ∧
      ∀ e ∈ (savePrepList r p st).2.2, e.isWrite = false) ∧
    (∀ (r : FullRemote) (st : FullState) (p : PrepList),
      (testConnection r st).1 = true →
      (p.id = "" ∨ p.name.jsTrim = "") →
      (savePrepList r p st).1 = .error (.validation "Prep list must have a valid ID and name") ∧
      RemoteEv.entityUpsert ∉ (savePrepList r p st).2.2) ∧
    (∀ (r : FullRemote) (st : FullState) (p : PrepList),
      (testConnection r st).1 = true →
      ¬(p.id = "" ∨ p.name.jsTrim = "") →
      st.currentUser = none →
      (savePrepList r p st).1 =
        .error (.authRequired "Authentication required to save prep lists") ∧
      RemoteEv.entityUpsert ∉ (savePrepList r p st).2.2) ∧
    (∀ (r : FullRemote) (st : FullState) (p : PrepList) (u : AuthUser),
      (testConnection r st).1 = true →
      ¬(p.id = "" ∨ p.name.jsTrim = "") →
      st.currentUser = some u →
      ((savePrepList r p st).2.2).getLast? = some RemoteEv.entityUpsert) := by
  refine ⟨?_, ?_, ?_, ?_⟩
  · intro r st p h
    constructor
    · rw [savePrepList, executeWithErrorHandling_fst, h]
      simp only [Bool.false_eq_true, if_false]
      rw [classify_fixes_connectionUnavailable]
    · intro e he
      rw [savePrepList, executeWithErrorHandling_events, h] at he
      simp only [Bool.false_eq_true, if_false] at he
      rcases testConnection_events r st with hc | hc <;> rw [hc] at he <;> simp at he
      rw [he]
      rfl
  · intro r st p h hv
    constructor
    · rw [savePrepList, executeWithErrorHandling_fst, h, if_pos rfl,
        savePrepListBody_invalid r p _ hv]
      exact congrArg Except.error classify_fixes_savePrepList_validation
    · rw [savePrepList, executeWithErrorHandling_events, h, if_pos rfl,
        savePrepListBody_invalid r p _ hv]
      simp only [List.append_nil, List.mem_append]
      rintro (hc | hp)
      · rcases testConnection_events r st with he | he <;> rw [he] at hc <;> simp at hc
      · exact absurd hp (profileEvents_no_entityUpsert r _)
  · intro r st p hconn hv huser
    have hcu : (profileState r (testConnection r st).2.1).currentUser = none := by
      rw [profileState_currentUser, testConnection_currentUser]; exact huser
    constructor
    · rw [savePrepList, executeWithErrorHandling_fst, hconn, if_pos rfl,
        savePrepListBody_noauth r p _ hv hcu]
      exact congrArg Except.error classify_fixes_savePrepList_auth
    · rw [savePrepList, executeWithErrorHandling_events, hconn, if_pos rfl,
        savePrepListBody_noauth r p _ hv hcu]
      simp only [List.append_nil, List.mem_append]
      rintro (hc | hp)
      · rcases testConnection_events r st with he | he <;> rw [he] at hc <;> simp at hc
      · exact absurd hp (profileEvents_no_entityUpsert r _)
  · intro r st p u hconn hv huser
    have hcu : (profileState r (testConnection r st).2.1).currentUser = some u := by
      rw [profileState_currentUser, testConnection_currentUser]; exact huser
    rw [savePrepList, executeWithErrorHandling_events, hconn, if_pos rfl,
      savePrepListBody_events_user r p _ u hv hcu]
    exact List.getLast?_concat _

/-- C5 witness: the amended pipeline order applied at a concrete valid
save by an authenticated user. -/
theorem c5_pipeline_order_witness :
    (savePrepList trivialRemote
      { id := "p2", name := "Dinner", items := [], company_id := none,
        created_at := none, updated_at := none } c5State).2.2.getLast? =
      some RemoteEv.entityUpsert :=
  c5_pipeline_order.2.2.2 trivialRemote c5State
    { id := "p2", name := "Dinner", items := [], company_id := none,
      created_at := none, updated_at := none }
    (AuthUser.mk "user-1" "a@b.c" none none) (by decide) (by decide) (by decide)

end FullService

namespace LockService

/-- Lock-variant PrepList (interface at part_002 lines 1229-1234): no
timestamp fields. -/
structure PrepListL where
  id : String
  name : String
  items : List PrepItem
  company_id : Option String
deriving DecidableEq, Repr

/-- Remote traffic of one lock-variant operation. -/
inductive LockEv where
  | upsert
  | fetchExisting
  | select
deriving DecidableEq, Repr

/-- Errors surfaced by the lock-variant operations. -/
inductive LockErr where
  | connectionRequired
  | invalidData
  | remote (e : FullService.RemoteErr)
deriving DecidableEq, Repr

/-- A canonical textual rendering of an optional value (JSON.stringify
prints a missing field as nothing and is modeled here by a marker). -/
def serializeOpt {α : Type} (f : α → String) : Option α → String
  | none => "undefined"
  | some a => f a

/-- Canonical rendering of a PrepItem, standing in for JSON.stringify. -/
def serializePrepItem (it : PrepItem) : String :=
  String.intercalate "," [it.id, it.name, it.quantity, it.unit,
    serializeOpt (fun s => s) it.category,
    serializeOpt (fun b => toString b) it.completed,
    serializeOpt (fun s => s) it.assignedTo,
    serializeOpt (fun s => s) it.notes]

/-- Canonical rendering of a lock-variant prep list, standing in for
JSON.stringify(data); the dedupe logic only ever compares such renderings
for equality. -/
def serializePrepList (p : PrepListL) : String :=
  String.intercalate "|"
    ([p.id, p.name] ++ p.items.map serializePrepItem ++
      [serializeOpt (fun s => s) p.company_id])

/-- generateOperationKey (part_002 lines 1344-1352), at the PrepList
payload type: a savePrepList payload with a truthy id gets the
prepList_id_name key (an empty name falls back to "unnamed"); anything
else falls back to the operation name plus the first 100 characters of
the serialized payload.  (The saveEvent branch concerns the Event payload
type and is not exercised by any prep-list operation.) -/
def generateOperationKey (operation : String) (data : PrepListL) : String :=
  if operation = "savePrepList" ∧ data.id ≠ "" then
    "prepList_" ++ data.id ++ "_" ++ (if data.name = "" then "unnamed" else data.name)
  else
    operation ++ "_" ++ String.mk ((serializePrepList data).data.take 100)

/-- The key under which savePrepList deduplicates. -/
def saveKey (p : PrepListL) : String :=
  generateOperationKey "savePrepList" p

/-- Map.get on the recentOperations map. -/
def lookupRecent (k : String) :
    List (String × Nat × PrepListL) → Option (Nat × PrepListL)
  | [] => none
  | e :: es => if e.1 = k then some e.2 else lookupRecent k es

/-- Map.delete on the recentOperations map. -/
def eraseRecent (k : String) (m : List (String × Nat × PrepListL)) :
    List (String × Nat × PrepListL) :=
  m.filter (fun e => e.1 != k)

/-- Map.set on the recentOperations map (replace in place or append). -/
def setRecent (k : String) (v : Nat × PrepListL) :
    List (String × Nat × PrepListL) → List (String × Nat × PrepListL)
  | [] => [(k, v)]
  | e :: es => if e.1 = k then (k, v) :: es else e :: setRecent k v es

/-- The reference duplicate-suppression window (part_002 line 1298). -/
def DUPLICATE_WINDOW : Nat := 2000

/-- isDuplicateOperation (part_002 lines 1355-1367): no record means no
duplicate; a record older than the window is evicted lazily and is no
duplicate; otherwise the call is a duplicate exactly when the recorded
payload serializes identically to the incoming one. -/
def isDuplicateOperation (operationKey : String) (data : PrepListL) (now : Nat)
    (m : List (String × Nat × PrepListL)) :
    Bool × List (String × Nat × PrepListL) :=
  match lookupRecent operationKey m with
  | none => (false, m)
  | some (ts, d) =>
    if now - ts > DUPLICATE_WINDOW then (false, eraseRecent operationKey m)
    else (serializePrepList d == serializePrepList data, m)

/-- The lock-variant remote collaborator.  connected abstracts the cached
testConnection outcome (part_002 lines 1301-1336); fetchPrepList is the
duplicate-key recovery fetch whose error object is ignored by the source. -/
structure LockRemote where
  connected : Bool
  upsertPrepList : PrepListL → Except FullService.RemoteErr PrepRow
  fetchPrepList : String → Option PrepRow
  selectPrepLists : Except FullService.RemoteErr (List PrepRow)
  selectRecipes : Except FullService.RemoteErr (List RecipeRow)

/-- The object savePrepList builds from a returned row (part_002 lines
1452-1456 and 1436-1441): id, name, items defaulted to the empty list -
and no company_id. -/
def savePrepListResult (row : PrepRow) : PrepListL :=
  { id := row.id
    name := row.name
    items := row.items.getD []
    company_id := none }

/-- The lock-variant savePrepList (part_002 lines 1391-1462), big-step:
one call runs to completion, so the executeWithLock wrapper (modeled
separately at the promise level) acquires and releases around the body.
The duplicate check runs first and may lazily evict an expired record;
a duplicate returns the input unchanged with no remote traffic.  The
body tests the connection, then validates id and name (no trimming),
then upserts; a successful upsert records the payload under the key; a
duplicate-key error (23505) falls back to fetching the existing row and
returns it without recording. -/
def savePrepList (r : LockRemote) (p : PrepListL) (now : Nat)
    (recent : List (String × Nat × PrepListL)) :
    Except LockErr PrepListL × List (String × Nat × PrepListL) × List LockEv :=
  if (isDuplicateOperation (saveKey p) p now recent).1 then
    (.ok p, (isDuplicateOperation (saveKey p) p now recent).2, [])
  else
    if r.connected then
      if p.id = "" ∨ p.name = "" then
        (.error .invalidData, (isDuplicateOperation (saveKey p) p now recent).2, [])
      else
        match r.upsertPrepList p with
        | .ok row =>
          (.ok (savePrepListResult row),
            setRecent (saveKey p) (now, p) (isDuplicateOperation (saveKey p) p now recent).2,
            [.upsert])
        | .error e =>
          if e.code = "23505" then
            match r.fetchPrepList p.id with
            | some existing =>
              (.ok (savePrepListResult existing),
                (isDuplicateOperation (saveKey p) p now recent).2,
                [.upsert, .fetchExisting])
            | none =>
              (.error (.remote e),
                (isDuplicateOperation (saveKey p) p now recent).2,
                [.upsert, .fetchExisting])
          else
            (.error (.remote e), (isDuplicateOperation (saveKey p) p now recent).2, [.upsert])
    else (.error .connectionRequired, (isDuplicateOperation (saveKey p) p now recent).2, [])

/-- The lock-variant row-to-domain mapping (part_002 lines 1478-1483). -/
def prepListFromRowL (r : PrepRow) : PrepListL :=
  { id := r.id
    name := r.name
    items := r.items.getD []
    company_id := r.company_id }

/-- The dedupe key of deduplicatePrepLists (part_002 line 1499): name and
company_id joined by an underscore, a falsy company_id standing in as
no-company. -/
def dedupKey (l : PrepListL) : String :=
  l.name ++ "_" ++ ((jsOrNull l.company_id).getD "no-company")

/-- Map.get on the seen map of deduplicatePrepLists. -/
def lookupSeen (k : String) : List (String × PrepListL) → Option PrepListL
  | [] => none
  | e :: es => if e.1 = k then some e.2 else lookupSeen k es

/-- Map.set on an existing key keeps the original insertion position. -/
def replaceSeen (k : String) (v : PrepListL) :
    List (String × PrepListL) → List (String × PrepListL)
  | [] => []
  | e :: es => if e.1 = k then (k, v) :: es else e :: replaceSeen k v es

/-- One iteration of deduplicatePrepLists (part_002 lines 1498-1511):
a new key is appended; an existing key is replaced only when the incoming
list has strictly more items. -/
def dedupStep (seen : List (String × PrepListL)) (l : PrepListL) :
    List (String × PrepListL) :=
  match lookupSeen (dedupKey l) seen with
  | none => seen ++ [(dedupKey l, l)]
  | some existing =>
    if existing.items.length < l.items.length then replaceSeen (dedupKey l) l seen
    else seen

/-- deduplicatePrepLists (part_002 lines 1495-1514). -/
def deduplicatePrepLists (ls : List PrepListL) : List PrepListL :=
  (ls.foldl dedupStep []).map Prod.snd

/-- The lock-variant loadPrepLists (part_002 lines 1464-1492): select,
map, filter rows with truthy id and name, deduplicate. -/
def loadPrepLists (r : LockRemote) : Except LockErr (List PrepListL) :=
  if r.connected then
    match r.selectPrepLists with
    | .ok rows =>
      .ok (deduplicatePrepLists
        ((rows.map prepListFromRowL).filter (fun p => p.id != "" && p.name != "")))
    | .error e => .error (.remote e)
  else .error .connectionRequired

/-- The lock-variant loadRecipes (part_002 lines 1641-1654): the remote
rows are returned as they are - no filtering and no mapping. -/
def loadRecipes (r : LockRemote) : Except LockErr (List RecipeRow) :=
  if r.connected then
    match r.selectRecipes with
    | .ok rows => .ok rows
    | .error e => .error (.remote e)
  else .error .connectionRequired

theorem isDuplicateOperation_notFound (k : String) (p : PrepListL) (now : Nat)
    (m : List (String × Nat × PrepListL)) (h : lookupRecent k m = none) :
    isDuplicateOperation k p now m = (false, m) := by
  unfold isDuplicateOperation
  rw [h]

theorem isDuplicateOperation_expired (k : String) (p d : PrepListL) (now ts : Nat)
    (m : List (String × Nat × PrepListL)) (h : lookupRecent k m = some (ts, d))
    (hexp : now - ts > DUPLICATE_WINDOW) :
    isDuplicateOperation k p now m = (false, eraseRecent k m) := by
  unfold isDuplicateOperation
  rw [h]
  show (if now - ts > DUPLICATE_WINDOW then (false, eraseRecent k m)
        else (serializePrepList d == serializePrepList p, m)) =
    (false, eraseRecent k m)
  rw [if_pos hexp]

theorem isDuplicateOperation_fresh (k : String) (p d : PrepListL) (now ts : Nat)
    (m : List (String × Nat × PrepListL)) (h : lookupRecent k m = some (ts, d))
    (hle : now - ts ≤ DUPLICATE_WINDOW) :
    isDuplicateOperation k p now m =
      (serializePrepList d == serializePrepList p, m) := by
  unfold isDuplicateOperation
  rw [h]
  show (if now - ts > DUPLICATE_WINDOW then (false, eraseRecent k m)
        else (serializePrepList d == serializePrepList p, m)) =
    (serializePrepList d == serializePrepList p, m)
  rw [if_neg (Nat.not_lt.mpr hle)]

/-- The remote for the C3 counterexample: every upsert reports a
duplicate-key error (23505) and the recovery fetch finds the existing
row. -/
def c3DupRemote : LockRemote :=
  { connected := true
    upsertPrepList := fun _ =>
      .error { code := "23505", msg := "duplicate key value violates unique constraint" }
    fetchPrepList := fun _ =>
      some { id := "p1", name := "Dinner", items := some [], company_id := none,
             created_at := none, updated_at := none }
    selectPrepLists := .ok []
    selectRecipes := .ok [] }

/-- The valid payload of the C3 counterexample. -/
def c3Prep : PrepListL :=
  { id := "p1", name := "Dinner", items := [], company_id := none }

/-- C3, counterexample.  A save that completes successfully through the
duplicate-key recovery path (upsert fails with 23505, the existing row is
fetched and returned) stores no record in the dedupe map: the claim that
every successfully completing save stores a timestamp-payload record
under its key is false. -/
theorem c3_record_counterexample :
    (savePrepList c3DupRemote c3Prep 1000 []).1 =
      .ok { id := "p1", name := "Dinner", items := [], company_id := none } ∧
    (savePrepList c3DupRemote c3Prep 1000 []).2.1 = [] ∧
    (savePrepList c3DupRemote c3Prep 1000 []).2.2 = [.upsert, .fetchExisting] := by
  refine ⟨rfl, rfl, rfl⟩

/-- C3, amended.  A save whose remote upsert itself succeeds records the
timestamp-payload pair under the derived key (the duplicate-key recovery
path completes successfully without recording); a subsequent call with the
same key whose payload serializes identically, within the 2000 ms window,
performs no remote traffic and returns the input unchanged; an expired
record is evicted lazily by the duplicate lookup itself; and a call after
the window expires performs a second remote write. -/
theorem c3_duplicate_suppression :
    (∀ (r : LockRemote) (p : PrepListL) (now : Nat)
       (recent : List (String × Nat × PrepListL)) (row : PrepRow),
      r.connected = true → ¬(p.id = "" ∨ p.name = "") →
      (isDuplicateOperation (saveKey p) p now recent).1 = false →
      r.upsertPrepList p = .ok row →
      savePrepList r p now recent =
        (.ok (savePrepListResult row),
          setRecent (saveKey p) (now, p) (isDuplicateOperation (saveKey p) p now recent).2,
          [.upsert])) ∧
    (∀ (r : LockRemote) (p d : PrepListL) (now ts : Nat)
       (recent : List (String × Nat × PrepListL)),
      lookupRecent (saveKey p) recent = some (ts, d) →
      now - ts ≤ DUPLICATE_WINDOW →
      serializePrepList d = serializePrepList p →
      savePrepList r p now recent = (.ok p, recent, [])) ∧
    (∀ (p d : PrepListL) (now ts : Nat) (recent : List (String × Nat × PrepListL)),
      lookupRecent (saveKey p) recent = some (ts, d) →
      now - ts > DUPLICATE_WINDOW →
      isDuplicateOperation (saveKey p) p now recent =
        (false, eraseRecent (saveKey p) recent)) ∧
    (∀ (r : LockRemote) (p d : PrepListL) (now ts : Nat)
       (recent : List (String × Nat × PrepListL)) (row : PrepRow),
      lookupRecent (saveKey p) recent = some (ts, d) →
      now - ts > DUPLICATE_WINDOW →
      r.connected = true → ¬(p.id = "" ∨ p.name = "") →
      r.upsertPrepList p = .ok row →
      (savePrepList r p now recent).2.2 = [LockEv.upsert]) := by
  refine ⟨?_, ?_, ?_, ?_⟩
  · intro r p now recent row hconn hv hdup hrow
    unfold savePrepList
    rw [hdup]
    simp only [Bool.false_eq_true, if_false]
    rw [hconn, if_pos rfl, if_neg hv, hrow]
  · intro r p d now ts recent hlook hle hser
    have hdup : isDuplicateOperation (saveKey p) p now recent = (true, recent) := by
      rw [isDuplicateOperation_fresh (saveKey p) p d now ts recent hlook hle, hser,
        beq_self_eq_true]
    unfold savePrepList
    rw [hdup]
    rfl
  · intro p d now ts recent hlook hexp
    exact isDuplicateOperation_expired (saveKey p) p d now ts recent hlook hexp
  · intro r p d now ts recent row hlook hexp hconn hv hrow
    unfold savePrepList
    rw [isDuplicateOperation_expired (saveKey p) p d now ts recent hlook hexp]
    simp only [Bool.false_eq_true, if_false]
    rw [hconn, if_pos rfl, if_neg hv, hrow]

/-- C3 witness: an identical payload re-saved 500 ms after a recorded
write is suppressed and returned unchanged with no remote traffic. -/
theorem c3_duplicate_suppression_witness :
    savePrepList c3DupRemote c3Prep 1000 [(saveKey c3Prep, (500, c3Prep))] =
      (.ok c3Prep, [(saveKey c3Prep, (500, c3Prep))], []) :=
  c3_duplicate_suppression.2.1 c3DupRemote c3Prep c3Prep 1000 500
    [(saveKey c3Prep, (500, c3Prep))] (by decide) (by decide) rfl

theorem lookupSeen_none_keys (k : String) (seen : List (String × PrepListL))
    (h : lookupSeen k seen = none) : ∀ e ∈ seen, e.1 ≠ k := by
  induction seen with
  | nil => simp
  | cons a as ih =>
    intro e he
    rw [lookupSeen] at h
    by_cases ha : a.1 = k
    · rw [if_pos ha] at h
      exact absurd h (by simp)
    · rw [if_neg ha] at h
      rcases List.mem_cons.mp he with rfl | he2
      · exact ha
      · exact ih h e he2

theorem lookupSeen_some_mem (k : String) (seen : List (String × PrepListL))
    (v : PrepListL) (h : lookupSeen k seen = some v) : (k, v) ∈ seen := by
  induction seen with
  | nil => simp [lookupSeen] at h
  | cons a as ih =>
    rw [lookupSeen] at h
    by_cases ha : a.1 = k
    · rw [if_pos ha, Option.some_inj] at h
      have hav : (k, v) = a := by rw [← ha, ← h]
      rw [hav]
      exact List.mem_cons_self _ _
    · rw [if_neg ha] at h
      exact List.mem_cons_of_mem _ (ih h)

theorem replaceSeen_keys (k : String) (v : PrepListL)
    (seen : List (String × PrepListL)) :
    (replaceSeen k v seen).map Prod.fst = seen.map Prod.fst := by
  induction seen with
  | nil => rfl
  | cons a as ih =>
    rw [replaceSeen]
    by_cases ha : a.1 = k
    · rw [if_pos ha]
      simp [ha]
    · rw [if_neg ha]
      simp [ih]

theorem mem_replaceSeen_of_nodup (k : String) (v : PrepListL)
    (seen : List (String × PrepListL)) (hnd : (seen.map Prod.fst).Nodup) :
    ∀ e ∈ replaceSeen k v seen, e = (k, v) ∨ (e ∈ seen ∧ e.1 ≠ k) := by
  induction seen with
  | nil => simp [replaceSeen]
  | cons a as ih =>
    intro e he
    rw [replaceSeen] at he
    rw [List.map_cons, List.nodup_cons] at hnd
    by_cases ha : a.1 = k
    · rw [if_pos ha] at he
      rcases List.mem_cons.mp he with rfl | he2
      · exact Or.inl rfl
      · refine Or.inr ⟨List.mem_cons_of_mem _ he2, ?_⟩
        intro hek
        exact hnd.1 (ha ▸ hek ▸ List.mem_map_of_mem Prod.fst he2)
    · rw [if_neg ha] at he
      rcases List.mem_cons.mp he with rfl | he2
      · exact Or.inr ⟨List.mem_cons_self _ _, ha⟩
      · rcases ih hnd.2 e he2 with h | ⟨hm, hk⟩
        · exact Or.inl h
        · exact Or.inr ⟨List.mem_cons_of_mem _ hm, hk⟩

theorem lookupSeen_of_mem_nodup (seen : List (String × PrepListL))
    (hnd : (seen.map Prod.fst).Nodup) :
    ∀ e ∈ seen, lookupSeen e.1 seen = some e.2 := by
  induction seen with
  | nil => simp
  | cons a as ih =>
    intro e he
    rw [List.map_cons, List.nodup_cons] at hnd
    rw [lookupSeen]
    rcases List.mem_cons.mp he with rfl | he2
    · rw [if_pos rfl]
    · have ha : a.1 ≠ e.1 := by
        intro hae
        exact hnd.1 (hae ▸ List.mem_map_of_mem Prod.fst he2)
      rw [if_neg ha]
      exact ih hnd.2 e he2

/-- The fold invariant of deduplicatePrepLists: every seen entry is keyed
by its own dedupKey, stems from the processed prefix and dominates (by
item count) every processed list with its key; keys are distinct; every
processed list has its key represented; and the map is no longer than the
prefix. -/
def SeenInv (processed : List PrepListL) (seen : List (String × PrepListL)) : Prop :=
  (∀ e ∈ seen, e.1 = dedupKey e.2 ∧ e.2 ∈ processed ∧
    ∀ u ∈ processed, dedupKey u = e.1 → u.items.length ≤ e.2.items.length) ∧
  (seen.map Prod.fst).Nodup ∧
  (∀ u ∈ processed, dedupKey u ∈ seen.map Prod.fst) ∧
  seen.length ≤ processed.length

theorem dedupStep_eq_append (seen : List (String × PrepListL)) (l : PrepListL)
    (h : lookupSeen (dedupKey l) seen = none) :
    dedupStep seen l = seen ++ [(dedupKey l, l)] := by
  unfold dedupStep
  rw [h]

theorem dedupStep_eq_replace (seen : List (String × PrepListL)) (l ex : PrepListL)
    (h : lookupSeen (dedupKey l) seen = some ex)
    (hlt : ex.items.length < l.items.length) :
    dedupStep seen l = replaceSeen (dedupKey l) l seen := by
  unfold dedupStep
  rw [h]
  show (if ex.items.length < l.items.length then replaceSeen (dedupKey l) l seen
        else seen) = replaceSeen (dedupKey l) l seen
  rw [if_pos hlt]

theorem dedupStep_eq_keep (seen : List (String × PrepListL)) (l ex : PrepListL)
    (h : lookupSeen (dedupKey l) seen = some ex)
    (hge : ¬ex.items.length < l.items.length) :
    dedupStep seen l = seen := by
  unfold dedupStep
  rw [h]
  show (if ex.items.length < l.items.length then replaceSeen (dedupKey l) l seen
        else seen) = seen
  rw [if_neg hge]

theorem dedupStep_inv (processed : List PrepListL)
    (seen : List (String × PrepListL)) (l : PrepListL)
    (h : SeenInv processed seen) : SeenInv (processed ++ [l]) (dedupStep seen l) := by
  obtain ⟨hent, hnd, hcov, hlen⟩ := h
  rcases hl : lookupSeen (dedupKey l) seen with _ | ex
  · rw [dedupStep_eq_append seen l hl]
    refine ⟨?_, ?_, ?_, ?_⟩
    · intro e he
      rcases List.mem_append.mp he with he2 | he2
      · obtain ⟨hk, hm, hdom⟩ := hent e he2
        refine ⟨hk, List.mem_append_left _ hm, ?_⟩
        intro u hu hku
        rcases List.mem_append.mp hu with hu2 | hu2
        · exact hdom u hu2 hku
        · rw [List.mem_singleton.mp hu2] at hku
          exact absurd (hk ▸ hku) (lookupSeen_none_keys _ _ hl e he2).symm
      · rw [List.mem_singleton.mp he2]
        refine ⟨rfl, List.mem_append_right _ (List.mem_singleton.mpr rfl), ?_⟩
        intro u hu hku
        rcases List.mem_append.mp hu with hu2 | hu2
        · exact absurd (hcov u hu2) (by
            rw [hku]
            intro hmem
            obtain ⟨e, he3, hek⟩ := List.mem_map.mp hmem
            exact lookupSeen_none_keys _ _ hl e he3 hek)
        · rw [List.mem_singleton.mp hu2]
    · rw [List.map_append, List.nodup_append]
      refine ⟨hnd, by simp, ?_⟩
      intro a ha hb
      rw [List.map_singleton, List.mem_singleton] at hb
      obtain ⟨e, he, hek⟩ := List.mem_map.mp ha
      exact lookupSeen_none_keys _ _ hl e he (hek.trans hb)
    · intro u hu
      rw [List.map_append, List.map_singleton]
      rcases List.mem_append.mp hu with hu2 | hu2
      · exact List.mem_append_left _ (hcov u hu2)
      · rw [List.mem_singleton.mp hu2]
        exact List.mem_append_right _ (List.mem_singleton.mpr rfl)
    · simp only [List.length_append, List.length_singleton]
      omega
  · have hexmem : (dedupKey l, ex) ∈ seen := lookupSeen_some_mem _ _ _ hl
    obtain ⟨hexk, hexm, hexdom⟩ := hent _ hexmem
    by_cases hlt : ex.items.length < l.items.length
    · rw [dedupStep_eq_replace seen l ex hl hlt]
      refine ⟨?_, ?_, ?_, ?_⟩
      · intro e he
        rcases mem_replaceSeen_of_nodup _ _ _ hnd e he with rfl | ⟨hm, hk⟩
        · refine ⟨rfl, List.mem_append_right _ (List.mem_singleton.mpr rfl), ?_⟩
          intro u hu hku
          rcases List.mem_append.mp hu with hu2 | hu2
          · calc u.items.length ≤ ex.items.length := hexdom u hu2 hku
              _ ≤ l.items.length := by omega
          · rw [List.mem_singleton.mp hu2]
        · obtain ⟨hk2, hm2, hdom2⟩ := hent e hm
          refine ⟨hk2, List.mem_append_left _ hm2, ?_⟩
          intro u hu hku
          rcases List.mem_append.mp hu with hu2 | hu2
          · exact hdom2 u hu2 hku
          · rw [List.mem_singleton.mp hu2] at hku
            exact absurd hku.symm hk
      · rw [replaceSeen_keys]
        exact hnd
      · intro u hu
        rw [replaceSeen_keys]
        rcases List.mem_append.mp hu with hu2 | hu2
        · exact hcov u hu2
        · rw [List.mem_singleton.mp hu2]
          exact List.mem_map_of_mem Prod.fst hexmem
      · have hrl : (replaceSeen (dedupKey l) l seen).length = seen.length := by
          have hmap := congrArg List.length (replaceSeen_keys (dedupKey l) l seen)
          simpa using hmap
        rw [hrl]
        simp only [List.length_append, List.length_singleton]
        omega
    · rw [dedupStep_eq_keep seen l ex hl hlt]
      refine ⟨?_, hnd, ?_, ?_⟩
      · intro e he
        obtain ⟨hk2, hm2, hdom2⟩ := hent e he
        refine ⟨hk2, List.mem_append_left _ hm2, ?_⟩
        intro u hu hku
        rcases List.mem_append.mp hu with hu2 | hu2
        · exact hdom2 u hu2 hku
        · rw [List.mem_singleton.mp hu2] at hku ⊢
          have hle : lookupSeen e.1 seen = some e.2 :=
            lookupSeen_of_mem_nodup seen hnd e he
          rw [← hku, hl] at hle
          have hv : ex = e.2 := Option.some_inj.mp hle
          rw [← hv]
          omega
      · intro u hu
        rcases List.mem_append.mp hu with hu2 | hu2
        · exact hcov u hu2
        · rw [List.mem_singleton.mp hu2]
          exact List.mem_map_of_mem Prod.fst hexmem
      · simp only [List.length_append, List.length_singleton]
        omega

theorem foldl_dedupStep_inv (ls : List PrepListL) :
    ∀ (processed : List PrepListL) (seen : List (String × PrepListL)),
      SeenInv processed seen → SeenInv (processed ++ ls) (ls.foldl dedupStep seen) := by
  induction ls with
  | nil => intro processed seen h; simpa using h
  | cons l ls ih =>
    intro processed seen h
    have h2 := ih (processed ++ [l]) (dedupStep seen l) (dedupStep_inv processed seen l h)
    rw [List.append_assoc] at h2
    simpa using h2

theorem deduplicatePrepLists_inv (ls : List PrepListL) :
    SeenInv ls (ls.foldl dedupStep []) := by
  have h := foldl_dedupStep_inv ls [] []
    ⟨by simp, by simp, by simp, by simp⟩
  simpa using h

theorem deduplicatePrepLists_subset (ls : List PrepListL) :
    ∀ l ∈ deduplicatePrepLists ls, l ∈ ls := by
  intro l hl
  obtain ⟨hent, _, _, _⟩ := deduplicatePrepLists_inv ls
  obtain ⟨e, he, hel⟩ := List.mem_map.mp hl
  subst hel
  exact (hent e he).2.1

theorem loadPrepLists_ok (r : LockRemote) (rows : List PrepRow)
    (hc : r.connected = true) (hs : r.selectPrepLists = .ok rows) :
    loadPrepLists r = .ok (deduplicatePrepLists
      ((rows.map prepListFromRowL).filter (fun p => p.id != "" && p.name != ""))) := by
  unfold loadPrepLists
  rw [hc, if_pos rfl, hs]

/-- A minimal prep item for concrete dedupe inputs. -/
def mkItem (n : String) : PrepItem :=
  { id := n, name := n, quantity := "1", unit := "u",
    category := none, completed := none, assignedTo := none, notes := none }

/-- Collision input: name "x" with company "y_z" encodes to the same
dedupe key as name "x_y" with company "z". -/
def c10A : PrepListL :=
  { id := "a1", name := "x", items := [mkItem "i1"], company_id := some "y_z" }

/-- Second list with the same (name, company) pair as c10A, more items. -/
def c10A2 : PrepListL :=
  { id := "a2", name := "x", items := [mkItem "i1", mkItem "i2"],
    company_id := some "y_z" }

/-- A list with a different (name, company) pair but the same encoded key
and the most items. -/
def c10B : PrepListL :=
  { id := "b1", name := "x_y", items := [mkItem "i1", mkItem "i2", mkItem "i3"],
    company_id := some "z" }

/-- C10, counterexample.  The dedupe key is the string
name_company (underscore-joined), which is not injective on pairs: the
pair (x, y_z) and the pair (x_y, z) collide.  Feeding two valid lists
sharing the pair (x, y_z) together with a colliding (x_y, z) list of more
items returns only the latter - so for a pair shared by several rows,
none of them need be returned, contradicting the claim that one of them
(the one with the most items) always is. -/
theorem c10_dedup_counterexample :
    dedupKey c10A = dedupKey c10B ∧
    c10A.name = c10A2.name ∧ c10A.company_id = c10A2.company_id ∧
    deduplicatePrepLists [c10A, c10A2, c10B] = [c10B] ∧
    (deduplicatePrepLists [c10A, c10A2, c10B]).filter
      (fun l => l.name == "x" && l.company_id == some "y_z") = [] := by
  refine ⟨rfl, rfl, rfl, by decide, by decide⟩

/-- C10, amended.  loadPrepLists (lock variant) deduplicates the valid
rows by the encoded key name_company: no two returned lists share a key
(hence none share both name and company_id); every returned list is an
input row whose item count is maximal among the input rows with its key;
every input key is represented; and the result is never longer than the
input - it can be strictly shorter even when every row is valid.  Distinct
(name, company_id) pairs whose encodings collide are merged into one
key group. -/
theorem c10_dedup_spec :
    (∀ ls : List PrepListL, (deduplicatePrepLists ls).Pairwise
      (fun a b => ¬(a.name = b.name ∧ a.company_id = b.company_id))) ∧
    (∀ (ls : List PrepListL) (l : PrepListL), l ∈ deduplicatePrepLists ls →
      l ∈ ls ∧ ∀ u ∈ ls, dedupKey u = dedupKey l → u.items.length ≤ l.items.length) ∧
    (∀ (ls : List PrepListL) (u : PrepListL), u ∈ ls →
      ∃ l ∈ deduplicatePrepLists ls, dedupKey l = dedupKey u) ∧
    (∀ ls : List PrepListL, (deduplicatePrepLists ls).length ≤ ls.length) ∧
    (∀ (r : LockRemote) (rows : List PrepRow),
      r.connected = true → r.selectPrepLists = .ok rows →
      loadPrepLists r = .ok (deduplicatePrepLists
        ((rows.map prepListFromRowL).filter (fun p => p.id != "" && p.name != "")))) ∧
    (deduplicatePrepLists [c10A, c10A2] = [c10A2] ∧
      [c10A, c10A2].length = 2) := by
  refine ⟨?_, ?_, ?_, ?_, loadPrepLists_ok, by decide⟩
  · intro ls
    obtain ⟨hent, hnd, _, _⟩ := deduplicatePrepLists_inv ls
    have hkeys : ((ls.foldl dedupStep []).map Prod.snd).map dedupKey =
        (ls.foldl dedupStep []).map Prod.fst := by
      rw [List.map_map]
      exact List.map_congr_left (fun e he => ((hent e he).1).symm)
    have hnd2 : (((ls.foldl dedupStep []).map Prod.snd).map dedupKey).Nodup := by
      rw [hkeys]; exact hnd
    have hpair : ((ls.foldl dedupStep []).map Prod.snd).Pairwise
        (fun a b => dedupKey a ≠ dedupKey b) :=
      List.pairwise_map.mp hnd2
    exact hpair.imp (fun hne hc => hne (by
      rw [dedupKey, dedupKey, hc.1, hc.2]))
  · intro ls l hl
    obtain ⟨hent, _, _, _⟩ := deduplicatePrepLists_inv ls
    obtain ⟨e, he, hel⟩ := List.mem_map.mp hl
    obtain ⟨hk, hm, hdom⟩ := hent e he
    subst hel
    refine ⟨hm, ?_⟩
    intro u hu hku
    exact hdom u hu (hku.trans hk.symm)
  · intro ls u hu
    obtain ⟨hent, _, hcov, _⟩ := deduplicatePrepLists_inv ls
    obtain ⟨e, he, hek⟩ := List.mem_map.mp (hcov u hu)
    exact ⟨e.2, List.mem_map_of_mem Prod.snd he, ((hent e he).1).symm.trans hek⟩
  · intro ls
    obtain ⟨_, _, _, hlen⟩ := deduplicatePrepLists_inv ls
    unfold deduplicatePrepLists
    rw [List.length_map]
    exact hlen

/-- C10 witness: the dominance property applied at the concrete
two-list input. -/
theorem c10_dedup_spec_witness :
    c10A2 ∈ [c10A, c10A2] ∧
    ∀ u ∈ [c10A, c10A2], dedupKey u = dedupKey c10A2 →
      u.items.length ≤ c10A2.items.length :=
  c10_dedup_spec.2.1 [c10A, c10A2] c10A2 (by decide)

end LockService

/-- The echoing remote for the C4 counterexample: the upsert stores the
payload as sent and returns it. -/
def c4EchoRemote : LockService.LockRemote :=
  { connected := true
    upsertPrepList := fun w =>
      .ok { id := w.id, name := w.name, items := some w.items,
            company_id := w.company_id, created_at := none, updated_at := none }
    fetchPrepList := fun _ => none
    selectPrepLists := .ok []
    selectRecipes := .ok [] }

/-- A prep list whose name is whitespace only (truthy, but empty after
trimming). -/
def c4WhitespacePrep : LockService.PrepListL :=
  { id := "p1", name := "   ", items := [], company_id := none }

/-- C4, counterexample.  The lock-variant savePrepList checks only
truthiness of id and name (no trimming): a whitespace-only name passes
validation, the remote upsert is performed with the name unchanged, and
the save succeeds - so a row whose trimmed name is empty is written,
against the claim that every save rejects such entities. -/
theorem c4_validation_counterexample :
    c4WhitespacePrep.name.jsTrim = "" ∧
    LockService.savePrepList c4EchoRemote c4WhitespacePrep 0 [] =
      (.ok { id := "p1", name := "   ", items := [], company_id := none },
        [(LockService.saveKey c4WhitespacePrep, (0, c4WhitespacePrep))],
        [LockService.LockEv.upsert]) := by
  refine ⟨by decide, rfl⟩

/-- C4, amended.  The full-variant save raises a ValidationError for an
empty id or a name that is empty after trimming and performs no entity
upsert for such payloads; the lock-variant save raises its validation
error only for an empty id or an empty (untrimmed) name, performing no
remote traffic then - whitespace-only names pass its validation and are
written unchanged. -/
theorem c4_validation :
    (∀ (r : FullService.FullRemote) (st : FullService.FullState) (p : PrepList),
      (FullService.testConnection r st).1 = true →
      (p.id = "" ∨ p.name.jsTrim = "") →
      (FullService.savePrepList r p st).1 =
        .error (.validation "Prep list must have a valid ID and name") ∧
      FullService.RemoteEv.entityUpsert ∉ (FullService.savePrepList r p st).2.2) ∧
    (∀ (r : LockService.LockRemote) (p : LockService.PrepListL) (now : Nat)
       (recent : List (String × Nat × LockService.PrepListL)),
      (LockService.isDuplicateOperation (LockService.saveKey p) p now recent).1 = false →
      r.connected = true →
      (p.id = "" ∨ p.name = "") →
      LockService.savePrepList r p now recent =
        (.error .invalidData,
          (LockService.isDuplicateOperation (LockService.saveKey p) p now recent).2,
          [])) := by
  constructor
  · intro r st p hconn hv
    constructor
    · rw [FullService.savePrepList, FullService.executeWithErrorHandling_fst, hconn,
        if_pos rfl, FullService.savePrepListBody_invalid r p _ hv]
      exact congrArg Except.error FullService.classify_fixes_savePrepList_validation
    · rw [FullService.savePrepList, FullService.executeWithErrorHandling_events, hconn,
        if_pos rfl, FullService.savePrepListBody_invalid r p _ hv]
      simp only [List.append_nil, List.mem_append]
      rintro (hc | hp)
      · rcases FullService.testConnection_events r st with he | he <;>
          rw [he] at hc <;> simp at hc
      · exact absurd hp (FullService.profileEvents_no_entityUpsert r _)
  · intro r p now recent hdup hconn hv
    unfold LockService.savePrepList
    rw [hdup]
    simp only [Bool.false_eq_true, if_false]
    rw [hconn, if_pos rfl, if_pos hv]

/-- C4 witness: a save with an empty id is rejected by the full variant
with the ValidationError. -/
theorem c4_validation_witness :
    (FullService.savePrepList FullService.trivialRemote
      { id := "", name := "Dinner", items := [], company_id := none,
        created_at := none, updated_at := none } FullService.c5State).1 =
      .error (.validation "Prep list must have a valid ID and name") :=
  (c4_validation.1 FullService.trivialRemote FullService.c5State
    { id := "", name := "Dinner", items := [], company_id := none,
      created_at := none, updated_at := none } (by decide) (by decide)).1

/-- A recipes row with an empty (missing) name, as the remote may
return it. -/
def c6BadRow : RecipeRow :=
  { id := "r1", name := "", description := none, ingredients := none,
    instructions := none, yield := none, prep_time := none, cook_time := none,
    total_time := none, difficulty := none, tags := none, notes := none,
    image := none, company_id := none, created_at := none, updated_at := none }

/-- The remote for the C6 counterexample: the recipes select returns the
single invalid row. -/
def c6LockRemote : LockService.LockRemote :=
  { connected := true
    upsertPrepList := fun _ => .error { code := "", msg := "" }
    fetchPrepList := fun _ => none
    selectPrepLists := .ok []
    selectRecipes := .ok [c6BadRow] }

/-- C6, counterexample.  The lock-variant loadRecipes returns the remote
rows as they are: a row with an empty name is passed straight through,
against the claim that every loadAll operation filters out rows missing
id or name. -/
theorem c6_filter_counterexample :
    c6BadRow.name = "" ∧
    LockService.loadRecipes c6LockRemote = .ok [c6BadRow] := by
  exact ⟨rfl, rfl⟩

theorem loadPrepListsBody_ok (r : FullService.FullRemote)
    (st : FullService.FullState) (rows : List PrepRow)
    (hs : r.selectPrepLists = .ok rows) :
    FullService.loadPrepListsBody r st =
      (.ok ((rows.filter (fun it => it.id != "" && it.name != "")).map prepListFromRow),
        [FullService.RemoteEv.entitySelect]) := by
  unfold FullService.loadPrepListsBody
  rw [hs]

/-- C6, amended.  The full-variant loadPrepLists returns exactly the
mapped images of the remote rows with a non-empty id and name, so every
returned entity has both; the lock-variant loadPrepLists filters out the
rows with a missing id or name and then deduplicates the survivors by
the name_company key - it can return fewer entities than the valid rows,
but every entity it returns stems from a valid row and has a non-empty
id and name; an empty remote result yields the empty sequence, not a
failure, in both variants; the lock-variant loadRecipes, however,
returns the remote rows unfiltered and unmapped. -/
theorem c6_load_filtering :
    (∀ (r : FullService.FullRemote) (st : FullService.FullState) (rows : List PrepRow),
      (FullService.testConnection r st).1 = true →
      r.selectPrepLists = .ok rows →
      (FullService.loadPrepLists r st).1 =
        .ok ((rows.filter (fun it => it.id != "" && it.name != "")).map prepListFromRow)) ∧
    (∀ (rows : List PrepRow) (q : PrepList),
      q ∈ (rows.filter (fun it => it.id != "" && it.name != "")).map prepListFromRow →
      q.id ≠ "" ∧ q.name ≠ "") ∧
    (∀ (r : FullService.FullRemote) (st : FullService.FullState),
      (FullService.testConnection r st).1 = true →
      r.selectPrepLists = .ok [] →
      (FullService.loadPrepLists r st).1 = .ok []) ∧
    (∀ (r : LockService.LockRemote) (rows : List PrepRow),
      r.connected = true → r.selectPrepLists = .ok rows →
      LockService.loadPrepLists r = .ok (LockService.deduplicatePrepLists
        ((rows.map LockService.prepListFromRowL).filter
          (fun p => p.id != "" && p.name != "")))) ∧
    (∀ (rows : List PrepRow) (q : LockService.PrepListL),
      q ∈ LockService.deduplicatePrepLists
        ((rows.map LockService.prepListFromRowL).filter
          (fun p => p.id != "" && p.name != "")) →
      q.id ≠ "" ∧ q.name ≠ "") ∧
    (∀ (r : LockService.LockRemote),
      r.connected = true → r.selectPrepLists = .ok [] →
      LockService.loadPrepLists r = .ok []) ∧
    (∀ (r : LockService.LockRemote) (rows : List RecipeRow),
      r.connected = true → r.selectRecipes = .ok rows →
      LockService.loadRecipes r = .ok rows) := by
  have hmain : ∀ (r : FullService.FullRemote) (st : FullService.FullState)
      (rows : List PrepRow),
      (FullService.testConnection r st).1 = true →
      r.selectPrepLists = .ok rows →
      (FullService.loadPrepLists r st).1 =
        .ok ((rows.filter (fun it => it.id != "" && it.name != "")).map prepListFromRow) := by
    intro r st rows hconn hs
    rw [FullService.loadPrepLists, FullService.executeWithErrorHandling_fst, hconn,
      if_pos rfl, loadPrepListsBody_ok r _ rows hs]
  refine ⟨hmain, ?_, ?_, ?_, ?_, ?_, ?_⟩
  · intro rows q hq
    obtain ⟨row, hrow, hmap⟩ := List.mem_map.mp hq
    obtain ⟨_, hfilt⟩ := List.mem_filter.mp hrow
    rw [Bool.and_eq_true, bne_iff_ne, bne_iff_ne] at hfilt
    subst hmap
    exact hfilt
  · intro r st hconn hs
    exact hmain r st [] hconn hs
  · intro r rows hconn hs
    exact LockService.loadPrepLists_ok r rows hconn hs
  · intro rows q hq
    have hmem := LockService.deduplicatePrepLists_subset _ q hq
    obtain ⟨_, hfilt⟩ := List.mem_filter.mp hmem
    rw [Bool.and_eq_true, bne_iff_ne, bne_iff_ne] at hfilt
    exact hfilt
  · intro r hconn hs
    rw [LockService.loadPrepLists_ok r [] hconn hs]
    rfl
  · intro r rows hconn hs
    unfold LockService.loadRecipes
    rw [hconn, if_pos rfl, hs]

/-- C6 witness: loading from an empty remote table yields the empty
sequence. -/
theorem c6_load_filtering_witness :
    (FullService.loadPrepLists FullService.trivialRemote FullService.c5State).1 =
      .ok [] :=
  c6_load_filtering.2.2.1 FullService.trivialRemote FullService.c5State
    (by decide) rfl

namespace FullService

/-- The two environment-sourced secrets; a missing one is the empty
string (the vite define defaults them to the empty string). -/
structure Config where
  url : String
  key : String
deriving DecidableEq, Repr

/-- The user projection placed in the diagnosis report (part_002 lines
695-699): id, email and role of the session user. -/
structure ReportUser where
  id : String
  email : String
  role : Option String
deriving DecidableEq, Repr

/-- The projection of a session user into the report. -/
def reportUserOf (u : AuthUser) : ReportUser :=
  { id := u.id, email := u.email, role := u.role }

/-- One pg_policies row (policyname and cmd are the fields the source
renders). -/
structure PolicyRow where
  policyname : String
  cmd : String
deriving DecidableEq, Repr

/-- The per-table row-level-security entry of the report. -/
structure RlsEntry where
  enabled : Bool
  policies : List String
deriving DecidableEq, Repr

/-- The diagnosis report (part_002 lines 656-675). -/
structure Diagnosis where
  configured : Bool
  accessible : Bool
  authenticated : Bool
  tables : List String
  errors : List String
  user : Option ReportUser
  userProfile : Option UserProfile
  rlsStatus : List (String × RlsEntry)
deriving DecidableEq, Repr

/-- The oracles of the diagnostic probes, alongside the base remote used
by ensureUserProfile.  An outer Except error is a thrown exception; the
nested Except of getSession is the authError returned in the response;
tableProbe returns the error object of the select-with-limit probe (none
means the probe succeeded); rlsClass returns the relrowsecurity column
(none when the row is missing); rlsPolicies returns the pg_policies rows
(none when data is null). -/
structure DiagRemote where
  base : FullRemote
  getSession : Except String (Except String (Option AuthUser))
  tableProbe : String → Except String (Option RemoteErr)
  rlsClass : String → Except String (Option Bool)
  rlsPolicies : String → Except String (Option (List PolicyRow))

/-- The fixed table list probed by diagnoseConnection (part_002 line 706)
and checked for RLS status (lines 734-741). -/
def tablesToTest : List String :=
  ["user_profiles", "prep_lists", "events", "recipes", "methods", "containers"]

/-- The diagnosis after the configuration check only (part_002 lines
666-685): one error entry per missing secret, configured when both are
present, everything else at its initial value. -/
def configDiagnosis (cfg : Config) : Diagnosis :=
  { configured := (cfg.url != "") && (cfg.key != "")
    accessible := false
    authenticated := false
    tables := []
    errors :=
      (if cfg.url = "" then ["VITE_SUPABASE_URL not configured"] else []) ++
      (if cfg.key = "" then ["VITE_SUPABASE_ANON_KEY not configured"] else [])
    user := none
    userProfile := none
    rlsStatus := [] }

/-- The authentication step of diagnoseConnection (part_002 lines
688-703): a returned auth error is pushed to the error list; a session
sets authenticated, the report user and (via ensureUserProfile) the
report profile, possibly mutating the profile cache and creating a
profile row. -/
def authStep (cfg : Config) (dr : DiagRemote) (st : FullState)
    (sessRes : Except String (Option AuthUser)) :
    Diagnosis × FullState × List RemoteEv :=
  match sessRes with
  | .error am =>
    ({ configDiagnosis cfg with
        errors := (configDiagnosis cfg).errors ++ ["Auth error: " ++ am] }, st, [])
  | .ok none => (configDiagnosis cfg, st, [])
  | .ok (some u) =>
    ({ configDiagnosis cfg with
        authenticated := true
        user := some (reportUserOf u)
        userProfile := (ensureUserProfile dr.base st).1 },
      (ensureUserProfile dr.base st).2.1,
      (ensureUserProfile dr.base st).2.2)

/-- One iteration of the table-accessibility loop (part_002 lines
708-731): a thrown probe or a returned non-RLS error is recorded as an
error string; an RLS error records a message, still counts the table as
accessible and tags it; a clean probe records the table and marks the
service accessible. -/
def probeTable (dr : DiagRemote) (d : Diagnosis) (t : String) : Diagnosis :=
  match dr.tableProbe t with
  | .error m =>
    { d with errors := d.errors ++ ["Table " ++ t ++ ": " ++ m] }
  | .ok (some e) =>
    if e.code = "42501" || containsStr e.msg "RLS" then
      { d with
        errors := d.errors ++ ["Table " ++ t ++ ": RLS policy active (" ++
          (if d.authenticated then "user authenticated" else "no authentication") ++ ")"]
        tables := d.tables ++ [t ++ " (RLS active)"]
        accessible := true }
    else
      { d with errors := d.errors ++ ["Table " ++ t ++ ": " ++ e.msg] }
  | .ok none =>
    { d with tables := d.tables ++ [t], accessible := true }

/-- One iteration of the RLS-status loop (part_002 lines 743-771): a
throw in either query yields the fallback entry; otherwise the entry
renders relrowsecurity (null defaulting to false) and the policy rows. -/
def rlsCheck (dr : DiagRemote) (d : Diagnosis) (t : String) : Diagnosis :=
  match dr.rlsClass t with
  | .error _ =>
    { d with rlsStatus := d.rlsStatus ++
        [(t, { enabled := false, policies := ["Unable to check policies"] })] }
  | .ok rlsData =>
    match dr.rlsPolicies t with
    | .error _ =>
      { d with rlsStatus := d.rlsStatus ++
          [(t, { enabled := false, policies := ["Unable to check policies"] })] }
    | .ok policies =>
      { d with rlsStatus := d.rlsStatus ++
          [(t, { enabled := rlsData.getD false
                 policies := (policies.getD []).map
                   (fun p => p.cmd ++ ": " ++ p.policyname) })] }

/-- The table-accessibility phase. -/
def probePhase (dr : DiagRemote) (d : Diagnosis) : Diagnosis :=
  tablesToTest.foldl (probeTable dr) d

/-- The RLS-status phase. -/
def rlsPhase (dr : DiagRemote) (d : Diagnosis) : Diagnosis :=
  tablesToTest.foldl (rlsCheck dr) d

theorem probeTable_errors_append (dr : DiagRemote) (d : Diagnosis) (t : String) :
    ∃ tail, (probeTable dr d t).errors = d.errors ++ tail := by
  unfold probeTable
  repeat' split
  all_goals first
    | exact ⟨_, rfl⟩
    | exact ⟨[], by simp⟩

theorem mem_probeTable_errors (dr : DiagRemote) (d : Diagnosis) (t s : String)
    (h : s ∈ d.errors) : s ∈ (probeTable dr d t).errors := by
  obtain ⟨tail, ht⟩ := probeTable_errors_append dr d t
  rw [ht]
  exact List.mem_append_left _ h

theorem mem_probeFold (dr : DiagRemote) (ts : List String) :
    ∀ (d : Diagnosis) (s : String), s ∈ d.errors →
      s ∈ (ts.foldl (probeTable dr) d).errors := by
  induction ts with
  | nil => intro d s h; simpa using h
  | cons t ts ih =>
    intro d s h
    rw [List.foldl_cons]
    exact ih _ s (mem_probeTable_errors dr d t s h)

theorem probeTable_thrown (dr : DiagRemote) (d : Diagnosis) (t m : String)
    (h : dr.tableProbe t = .error m) :
    ("Table " ++ t ++ ": " ++ m) ∈ (probeTable dr d t).errors := by
  unfold probeTable
  rw [h]
  show ("Table " ++ t ++ ": " ++ m) ∈ d.errors ++ ["Table " ++ t ++ ": " ++ m]
  exact List.mem_append_right _ (List.mem_singleton.mpr rfl)

theorem probeFold_thrown (dr : DiagRemote) (ts : List String) :
    ∀ (d : Diagnosis) (t m : String), t ∈ ts → dr.tableProbe t = .error m →
      ("Table " ++ t ++ ": " ++ m) ∈ (ts.foldl (probeTable dr) d).errors := by
  induction ts with
  | nil => simp
  | cons t2 ts ih =>
    intro d t m ht hm
    rw [List.foldl_cons]
    rcases List.mem_cons.mp ht with rfl | ht2
    · exact mem_probeFold dr ts _ _ (probeTable_thrown dr d t m hm)
    · exact ih _ t m ht2 hm

theorem rlsCheck_errors (dr : DiagRemote) (d : Diagnosis) (t : String) :
    (rlsCheck dr d t).errors = d.errors := by
  unfold rlsCheck
  repeat' split
  all_goals rfl

theorem rlsFold_errors (dr : DiagRemote) (ts : List String) :
    ∀ d : Diagnosis, (ts.foldl (rlsCheck dr) d).errors = d.errors := by
  induction ts with
  | nil => intro d; rfl
  | cons t ts ih =>
    intro d
    rw [List.foldl_cons, ih, rlsCheck_errors]

/-- diagnoseConnection (part_002 lines 656-780).  When a secret is
missing, nothing beyond the configuration check runs.  A thrown
getSession is the only exception reaching the outer catch, which appends
the diagnosis-failed entry to whatever the report held; every other
probe failure is absorbed in its own loop iteration.  The final
statements always run: the connection memo is cleared and the report is
returned - the function never raises. -/
def diagnoseConnection (cfg : Config) (dr : DiagRemote) (st : FullState) :
    Diagnosis × FullState × List RemoteEv :=
  if (cfg.url != "") && (cfg.key != "") then
    match dr.getSession with
    | .error m =>
      ({ configDiagnosis cfg with
          errors := (configDiagnosis cfg).errors ++ ["Connection diagnosis failed: " ++ m] },
        { st with connectionMemo := none }, [.sessionFetch])
    | .ok sessRes =>
      (rlsPhase dr (probePhase dr (authStep cfg dr st sessRes).1),
        { (authStep cfg dr st sessRes).2.1 with connectionMemo := none },
        [.sessionFetch] ++ (authStep cfg dr st sessRes).2.2 ++
          (tablesToTest.map RemoteEv.tableProbe) ++ (tablesToTest.map RemoteEv.rlsQuery))
  else
    (configDiagnosis cfg, { st with connectionMemo := none }, [])

theorem configDiagnosis_errors_configured (cfg : Config)
    (hurl : cfg.url ≠ "") (hkey : cfg.key ≠ "") :
    (configDiagnosis cfg).errors = [] := by
  unfold configDiagnosis
  show ((if cfg.url = "" then ["VITE_SUPABASE_URL not configured"] else []) ++
    (if cfg.key = "" then ["VITE_SUPABASE_ANON_KEY not configured"] else [])) = []
  rw [if_neg hurl, if_neg hkey]
  rfl

theorem configured_check_true (cfg : Config)
    (hurl : cfg.url ≠ "") (hkey : cfg.key ≠ "") :
    ((cfg.url != "") && (cfg.key != "")) = true := by
  rw [Bool.and_eq_true, bne_iff_ne, bne_iff_ne]
  exact ⟨hurl, hkey⟩

theorem ensureUserProfile_userProfile_mono (r : FullRemote) (st : FullState) :
    ∀ p, st.userProfile = some p → (ensureUserProfile r st).2.1.userProfile = some p := by
  unfold ensureUserProfile
  repeat' split
  all_goals intro p h
  all_goals simp_all

theorem authStep_currentUser (cfg : Config) (dr : DiagRemote) (st : FullState)
    (s : Except String (Option AuthUser)) :
    (authStep cfg dr st s).2.1.currentUser = st.currentUser := by
  unfold authStep
  repeat' split
  all_goals first
    | rfl
    | exact ensureUserProfile_currentUser _ _

theorem authStep_userProfile_mono (cfg : Config) (dr : DiagRemote) (st : FullState)
    (s : Except String (Option AuthUser)) :
    ∀ p, st.userProfile = some p → (authStep cfg dr st s).2.1.userProfile = some p := by
  unfold authStep
  repeat' split
  all_goals first
    | exact fun p h => h
    | exact ensureUserProfile_userProfile_mono _ _

theorem authStep_writes (cfg : Config) (dr : DiagRemote) (st : FullState)
    (s : Except String (Option AuthUser)) :
    ∀ e ∈ (authStep cfg dr st s).2.2, e.isWrite = true →
      ∃ np, e = RemoteEv.profileUpsert np := by
  unfold authStep
  repeat' split
  all_goals first
    | exact ensureUserProfile_writes _ _
    | simp

/-- The state for the C9 counterexample: a completed connection test is
memoized. -/
def c9State : FullState :=
  { currentUser := none, userProfile := none, connectionMemo := some true }

/-- A fully benign diagnostics remote: no session, every probe clean. -/
def trivialDiagRemote : DiagRemote :=
  { base := trivialRemote
    getSession := .ok (.ok none)
    tableProbe := fun _ => .ok none
    rlsClass := fun _ => .ok none
    rlsPolicies := fun _ => .ok none }

/-- C9, counterexample.  diagnoseConnection is not side-effect free: its
final statement always clears the memoized connection promise, so a state
with a completed connection memo is changed by a run in which every
remote probe is benign. -/
theorem c9_readonly_counterexample :
    (diagnoseConnection (Config.mk "https://x" "anon") trivialDiagRemote c9State).2.1 ≠
      c9State ∧
    (diagnoseConnection (Config.mk "https://x" "anon") trivialDiagRemote c9State).2.1.connectionMemo =
      none ∧
    c9State.connectionMemo = some true := by
  refine ⟨?_, rfl, rfl⟩
  intro h
  have h2 : (none : Option Bool) = some true := congrArg FullState.connectionMemo h
  exact Option.noConfusion h2

/-- C9, amended.  diagnoseConnection performs no entity-table write and
leaves the session identity and any cached profile intact, but it is not
side-effect free: it always clears the connection memo, and (when a
session is present) it runs ensureUserProfile, whose only possible write
is the profile-creating upsert and which may populate the profile
cache. -/
theorem c9_diagnose_effects :
    ∀ (cfg : Config) (dr : DiagRemote) (st : FullState),
      (diagnoseConnection cfg dr st).2.1.currentUser = st.currentUser ∧
      (diagnoseConnection cfg dr st).2.1.connectionMemo = none ∧
      (∀ p, st.userProfile = some p →
        (diagnoseConnection cfg dr st).2.1.userProfile = some p) ∧
      (∀ e ∈ (diagnoseConnection cfg dr st).2.2, e.isWrite = true →
        ∃ np, e = RemoteEv.profileUpsert np) := by
  intro cfg dr st
  unfold diagnoseConnection
  split
  · split
    · refine ⟨rfl, rfl, fun p h => h, ?_⟩
      intro e he hw
      rw [List.mem_singleton.mp he] at hw
      simp [RemoteEv.isWrite] at hw
    · refine ⟨authStep_currentUser cfg dr st _, rfl,
        fun p h => authStep_userProfile_mono cfg dr st _ p h, ?_⟩
      intro e he hw
      simp only [List.append_assoc, List.mem_append, List.mem_singleton,
        List.mem_map] at he
      rcases he with he | he | ⟨t, _, he⟩ | ⟨t, _, he⟩
      · rw [he] at hw
        simp [RemoteEv.isWrite] at hw
      · exact authStep_writes cfg dr st _ e he hw
      · rw [← he] at hw
        simp [RemoteEv.isWrite] at hw
      · rw [← he] at hw
        simp [RemoteEv.isWrite] at hw
  · refine ⟨rfl, rfl, fun p h => h, by simp⟩

/-- C9 witness: the effect frame applied at a configured run over the
benign remote. -/
theorem c9_diagnose_effects_witness :
    (diagnoseConnection (Config.mk "https://x" "anon") trivialDiagRemote
      (FullState.mk none none none)).2.1.currentUser = none ∧
    (∀ p, (FullState.mk none none none).userProfile = some p →
      (diagnoseConnection (Config.mk "https://x" "anon") trivialDiagRemote
        (FullState.mk none none none)).2.1.userProfile = some p) :=
  ⟨(c9_diagnose_effects (Config.mk "https://x" "anon") trivialDiagRemote
      (FullState.mk none none none)).1,
   (c9_diagnose_effects (Config.mk "https://x" "anon") trivialDiagRemote
      (FullState.mk none none none)).2.2.1⟩

/-- C8.  diagnoseConnection returns a complete report for every
environment and remote behavior: with both secrets missing it returns
configured false, accessible false and exactly the two configuration
error entries, whatever the remote does; when configured, a thrown
session fetch becomes the single diagnosis-failed error entry rather
than an exception; and every thrown table probe is recorded as its
error-list entry. -/
theorem c8_diagnose_report :
    (∀ (dr : DiagRemote) (st : FullState),
      (diagnoseConnection (Config.mk "" "") dr st).1 =
        Diagnosis.mk false false false []
          ["VITE_SUPABASE_URL not configured", "VITE_SUPABASE_ANON_KEY not configured"]
          none none []) ∧
    (∀ (dr : DiagRemote) (st : FullState),
      ((diagnoseConnection (Config.mk "" "") dr st).1).errors.length = 2) ∧
    (∀ (cfg : Config) (dr : DiagRemote) (st : FullState) (m : String),
      cfg.url ≠ "" → cfg.key ≠ "" → dr.getSession = .error m →
      (diagnoseConnection cfg dr st).1.errors =
        ["Connection diagnosis failed: " ++ m]) ∧
    (∀ (cfg : Config) (dr : DiagRemote) (st : FullState)
       (sessRes : Except String (Option AuthUser)) (t m : String),
      cfg.url ≠ "" → cfg.key ≠ "" → dr.getSession = .ok sessRes →
      t ∈ tablesToTest → dr.tableProbe t = .error m →
      ("Table " ++ t ++ ": " ++ m) ∈ (diagnoseConnection cfg dr st).1.errors) := by
  refine ⟨fun dr st => rfl, fun dr st => rfl, ?_, ?_⟩
  · intro cfg dr st m hurl hkey hsess
    unfold diagnoseConnection
    rw [configured_check_true cfg hurl hkey, if_pos rfl, hsess]
    show (configDiagnosis cfg).errors ++ ["Connection diagnosis failed: " ++ m] =
      ["Connection diagnosis failed: " ++ m]
    rw [configDiagnosis_errors_configured cfg hurl hkey]
    rfl
  · intro cfg dr st sessRes t m hurl hkey hsess ht hm
    unfold diagnoseConnection
    rw [configured_check_true cfg hurl hkey, if_pos rfl, hsess]
    show ("Table " ++ t ++ ": " ++ m) ∈
      (rlsPhase dr (probePhase dr (authStep cfg dr st sessRes).1)).errors
    rw [rlsPhase, rlsFold_errors]
    exact probeFold_thrown dr tablesToTest _ t m ht hm

/-- The remote for the C8 witness: a thrown session fetch. -/
def c8ThrowRemote : DiagRemote :=
  { base := trivialRemote
    getSession := .error "network down"
    tableProbe := fun _ => .ok none
    rlsClass := fun _ => .ok none
    rlsPolicies := fun _ => .ok none }

/-- C8 witness: the thrown session fetch is absorbed into the single
diagnosis-failed error entry. -/
theorem c8_diagnose_report_witness :
    (diagnoseConnection (Config.mk "https://x" "anon") c8ThrowRemote
      (FullState.mk none none none)).1.errors =
      ["Connection diagnosis failed: network down"] :=
  c8_diagnose_report.2.2.1 (Config.mk "https://x" "anon") c8ThrowRemote
    (FullState.mk none none none) "network down" (by decide) (by decide) rfl

end FullService

end PrepDb
